import Mathlib

/-!
Verification of the Voice-Analyzer Streamlit app (`src/app.py`).

The development shallowly embeds the pure logic of the script:

* the text-clamping helper `clamp_text` and the per-format extractors,
* the module-level evidence-assembly loop (running character budget,
  per-file and total-limit truncation, per-input status lines),
* the prompt builder `build_prompt`,
* the request-part construction of `call_gemini_multimodal`, and
* the run block (credential check, error handling, session history,
  export artifacts).

External collaborators (the pypdf / python-docx / BeautifulSoup / PIL /
pandas parsers and the Gemini service) are modelled as oracle inputs:
each upload carries the value the library call would have produced
(`none` meaning the library raised), and the gateway outcome is an
`Except` value.  Python `str` is modelled by Lean `String` (a list of
code points, matching CPython's code-point semantics for `len` and
slicing); Python string helpers are re-implemented on `String.data` so
that they mirror CPython behaviour.  Machine integers are `Nat`/`Int`
(`remaining` can go negative, hence `Int` where the script subtracts).

String literals are transcribed byte-for-byte from `src/app.py`
(as `\uXXXX` escapes; the file's non-ASCII text is kept exactly as it
appears in the source).
-/

namespace VoiceAnalyzer

/-- Bytes of an uploaded payload. -/
abbrev Byte := Fin 256

/-- Python `s.strip()`: remove leading and trailing whitespace
(modelled with `Char.isWhitespace`). -/
def pyStrip (s : String) : String :=
  ⟨List.rdropWhile Char.isWhitespace (s.data.dropWhile Char.isWhitespace)⟩

/-- Python `s[:n]` for `n ≥ 0`: the first `n` code points. -/
def pyTake (s : String) (n : Nat) : String :=
  ⟨s.data.take n⟩

/-- Python `sep.join(l)`. -/
def pyJoin (sep : String) : List String → String
  | [] => ""
  | [x] => x
  | x :: xs => x ++ sep ++ pyJoin sep xs

/-- Python `s.lower()` (ASCII case mapping, as used here on filenames). -/
def pyLower (s : String) : String :=
  ⟨s.data.map Char.toLower⟩

/-- Helper for `pyThousands`: insert a comma after every group of three
digits of a reversed digit list. -/
def insertCommas : List Char → List Char
  | a :: b :: c :: d :: rest => a :: b :: c :: ',' :: insertCommas (d :: rest)
  | l => l

/-- Python `f"{n:,}"`: decimal digits grouped in threes by commas. -/
def pyThousands (n : Nat) : String :=
  ⟨(insertCommas (Nat.toDigits 10 n).reverse).reverse⟩

/-- Python `s.endswith(t)`. -/
def pyEndsWith (s t : String) : Bool :=
  t.data.isSuffixOf s.data

/-- Whether a byte is a UTF-8 continuation byte (`0x80`–`0xBF`). -/
def isContByte (b : Byte) : Bool :=
  0x80 ≤ b.val && b.val < 0xC0

/-- Decoding loop for `decodeUtf8Ignore`.  The `fuel` argument only
forces termination; it is initialised to the list length, which at
least one consumed byte per step keeps sufficient. -/
def decodeUtf8Loop : Nat → List Byte → List Char
  | 0, _ => []
  | _, [] => []
  | fuel + 1, b :: rest =>
    if b.val < 0x80 then Char.ofNat b.val :: decodeUtf8Loop fuel rest
    else if b.val < 0xC2 then decodeUtf8Loop fuel rest
    else if b.val < 0xE0 then
      match rest with
      | [] => []
      | c1 :: r1 =>
        if isContByte c1 then
          Char.ofNat ((b.val - 0xC0) * 64 + (c1.val - 0x80)) :: decodeUtf8Loop fuel r1
        else decodeUtf8Loop fuel rest
    else if b.val < 0xF0 then
      match rest with
      | c1 :: c2 :: r2 =>
        if isContByte c1 && isContByte c2 then
          let cp := (b.val - 0xE0) * 4096 + (c1.val - 0x80) * 64 + (c2.val - 0x80)
          if cp < 0x800 || (0xD800 ≤ cp && cp ≤ 0xDFFF) then decodeUtf8Loop fuel r2
          else Char.ofNat cp :: decodeUtf8Loop fuel r2
        else decodeUtf8Loop fuel rest
      | _ => decodeUtf8Loop fuel rest
    else if b.val < 0xF5 then
      match rest with
      | c1 :: c2 :: c3 :: r3 =>
        if isContByte c1 && isContByte c2 && isContByte c3 then
          let cp := (b.val - 0xF0) * 262144 + (c1.val - 0x80) * 4096 +
            (c2.val - 0x80) * 64 + (c3.val - 0x80)
          if cp < 0x10000 || 0x10FFFF < cp then decodeUtf8Loop fuel r3
          else Char.ofNat cp :: decodeUtf8Loop fuel r3
        else decodeUtf8Loop fuel rest
      | _ => decodeUtf8Loop fuel rest
    else decodeUtf8Loop fuel rest

/-- Python `raw.decode("utf-8", errors="ignore")`: decode UTF-8,
dropping ill-formed bytes instead of failing.  Overlong encodings,
surrogate code points and out-of-range sequences are rejected (and the
offending lead byte dropped). -/
def decodeUtf8Ignore (l : List Byte) : List Char :=
  decodeUtf8Loop l.length l


/-! String literals transcribed from src/app.py (see module docstring). -/

def promptChunk0 : String := "\n\u00E4\u00BD\u00A0\u00E6\u02DC\u00AF\u00E4\u00B8\u20AC\u00E5\u20AC\u2039\u00E3\u20AC\u0152\u00E8\u00AA\u00E6\u201E\u0178/\u00E9\u00A2\u00A8\u00E6\u00A0\u00BC/\u00E5\u0192\u00B9\u00E5\u20AC\u00BC\u00E8\u00A7\u20AC\u00E3\u20AC\u00E5\u02C6\u2020\u00E6\u00E5\u2122\u00A8\u00E3\u20AC\u201A\u00E4\u00BD\u00A0\u00E7\u0161\u201E\u00E4\u00BB\u00BB\u00E5\u2039\u2122\u00EF\u00BC\u0161\u00E5\u00BE\u00E6\u00A8\u00A3\u00E6\u0153\u00AC\u00E6\u2013\u2021\u00E6\u0153\u00AC\u00EF\u00BC\u02C6\u00E4\u00BB\u00A5\u00E5\u0160\u00E5\u00BF\u2026\u00E8\u00A6\u00E6\u2122\u201A\u00E5\u00B0\u00E5\u0153\u2013\u00E7\u2030\u2021\u00E5\u2026\u00A7\u00E5\u00AE\u00B9\u00E7\u0161\u201E\u00E7\u2020\u00E8\u00A7\u00A3\u00EF\u00BC\u2030\u00E6\u00AD\u00B8\u00E7\u00B4\u00E4\u00BD\u0153\u00E8\u20AC\u2026\u00E7\u0161\u201E Persona \u00E8\u02C6\u2021\u00E5\u00AF\u00E5\u0178\u00B7\u00E8\u00A1\u0152\u00E7\u0161\u201E\u00E5\u00AF\u00AB\u00E4\u00BD\u0153\u00E8\u00A6\u00E6\u00A0\u00BC\u00EF\u00BC\u02C6Voice Spec\u00EF\u00BC\u2030\u00EF\u00BC\u0152\u00E4\u00B8\u00A6\u00E8\u00BC\u00B8\u00E5\u2021\u00BA\u00E5\u00AF\u00E7\u203A\u00B4\u00E6\u00A5\u00E8\u00B2\u00BC\u00E5\u2026\u00A5\u00E5\u00A6\u00E4\u00B8\u20AC\u00E5\u20AC\u2039\u00E5\u00B0\u02C6\u00E6\u00A1\u02C6\u00E5\u00B0\u00E5\u0152\u2026\u00E7\u0161\u201E VOICE CONTEXT\u00E3\u20AC\u201A\n\n\u00E3\u20AC\u00E9\u2021\u00E8\u00A6\u00E8\u00A6\u00E5\u2030\u2021\u00E3\u20AC\u2018\n1) \u00E3\u20AC\u0152\u00E5\u00AF\u00E6\u0160\u00BD\u00E5\u2013\u00E6\u2013\u2021\u00E6\u0153\u00AC\u00E7\u0161\u201E\u00E6\u00AA\u201D\u00E6\u00A1\u02C6\u00E3\u20AC= \u00E8\u00AD\u2030\u00E6\u201C\u0161\u00E5\u00B1\u00A4\u00EF\u00BC\u0161\u00E4\u00BD\u00A0\u00E5\u00AA\u00E8\u0192\u00BD\u00E5\u00BE\u00E9\u20AC\u2122\u00E8\u00A3\u00A1\u00E6\u00AD\u00B8\u00E7\u00B4\u00E8\u00AA\u00E6\u201E\u0178\u00E7\u2030\u00B9\u00E5\u00BE\u00B5\u00E3\u20AC\u00E5\u00A5\u00E6\u00B3\u2022\u00E3\u20AC\u00E7\u00AB\u2039\u00E5\u00A0\u00B4\u00E3\u20AC\u00E7\u00AF\u20AC\u00E5\u00A5\u00EF\u00BC\u0152\u00E4\u00B8\u00E5\u00AF\u00E6\u2020\u2018\u00E7\u00A9\u00BA\u00E6\u00E9\u20AC\u00A0\u00E4\u00BD\u0153\u00E8\u20AC\u2026\u00E8\u0192\u0152\u00E6\u2122\u00AF\u00E3\u20AC\u201A\n2) \u00E3\u20AC\u0152Excel/CSV\u00E3\u20AC= \u00E8\u00AD\u2030\u00E6\u201C\u0161\u00E5\u00B1\u00A4\u00EF\u00BC\u0161\u00E6\u02C6\u2018\u00E5\u00B7\u00B2\u00E5\u00B0\u2021\u00E8\u00A1\u00A8\u00E6\u00A0\u00BC\u00E8\u00BD\u2030\u00E6\u02C6\u00E3\u20AC\u0152\u00E6\u00AC\u201E\u00E4\u00BD\u00EF\u00BC\u2039\u00E6\u00A8\u00A3\u00E4\u00BE\u2039\u00E3\u20AC\u00E7\u0161\u201E\u00E8\u00AA\u00E6\u201E\u0178\u00E6\u2018\u02DC\u00E8\u00A6\u00EF\u00BC\u0152\u00E4\u00BD\u00A0\u00E5\u00AF\u00E7\u201D\u00A8\u00E4\u00BE\u2020\u00E5\u02C6\u00A4\u00E6\u2013\u00B7\u00E5\u2018\u00BD\u00E5\u00E9\u00A2\u00A8\u00E6\u00A0\u00BC\u00E3\u20AC\u00E5\u00A5\u00E5\u2039\u00E7\u00BF\u2019\u00E6\u2026\u00A3\u00E3\u20AC\u00E8\u00AA\u00E5\u00BD\u2122\u00E5\u00E5\u00A5\u00BD\u00E3\u20AC\u201A\n3) \u00E3\u20AC\u0152\u00E5\u0153\u2013\u00E7\u2030\u2021\u00E6\u00AA\u201D\u00E3\u20AC= \u00E8\u00AD\u2030\u00E6\u201C\u0161\u00E5\u00B1\u00A4\u00EF\u00BC\u0161\u00E4\u00BD\u00A0\u00E5\u00AF\u00E4\u00BB\u00A5\u00E6\u00A0\u00B9\u00E6\u201C\u0161\u00E5\u0153\u2013\u00E7\u2030\u2021\u00E4\u00B8\u00AD\u00E5\u00AF\u00E8\u00A6\u2039\u00E6\u2013\u2021\u00E5\u00AD\u2014/\u00E7\u2030\u02C6\u00E9\u00A2/\u00E8\u00AA\u00E6\u00B0\u00A3\u00E7\u201D\u00A8\u00E6\u00B3\u2022\u00E5\u0161\u00E6\u00AD\u00B8\u00E7\u00B4\u00EF\u00BC\u02C6\u00E4\u00B8\u00E8\u00A6\u00E8\u2021\u2020\u00E6\u00B8\u00AC\u00E7\u0153\u2039\u00E4\u00B8\u00E8\u00A6\u2039\u00E7\u0161\u201E\u00E5\u2026\u00A7\u00E5\u00AE\u00B9\u00EF\u00BC\u2030\u00E3\u20AC\u201A\n4) \u00E3\u20AC\u0152\u00E6\u02C6\u2018\u00E7\u0161\u201E\u00E7\u00AD\u2020\u00E8\u00A8\u02DC\u00E3\u20AC= \u00E8\u00AA\u00E5\u00A2\u0192\u00E6\u00A0\u00A1\u00E6\u00BA\u2013\u00E5\u00B1\u00A4\u00EF\u00BC\u0161\u00E5\u00AF\u00E4\u00BB\u00A5\u00E8\u00A3\u0153\u00E8\u00B6\u00B3\u00E4\u00BD\u0153\u00E8\u20AC\u2026\u00E5\u00AE\u0161\u00E4\u00BD/\u00E5\u0192\u00B9\u00E5\u20AC\u00BC\u00E8\u00A7\u20AC\u00E8\u201E\u02C6\u00E7\u00B5\u00A1\u00EF\u00BC\u203A\u00E8\u2039\u00A5\u00E8\u02C6\u2021\u00E8\u00AD\u2030\u00E6\u201C\u0161\u00E5\u00B1\u00A4\u00E8\u00A1\u00E7\u00AA\u00EF\u00BC\u0152\u00E5\u00BF\u2026\u00E9\u00A0\u02C6\u00E6\u0152\u2021\u00E5\u2021\u00BA\u00E8\u00A1\u00E7\u00AA\u00E4\u00B8\u00A6\u00E7\u00B5\u00A6\u00E5\u2021\u00BA\u00E5\u2026\u00A9\u00E5\u00A5\u2014\u00E7\u2030\u02C6\u00E6\u0153\u00AC\u00EF\u00BC\u02C6V-A: \u00E4\u00BB\u00A5\u00E8\u00AD\u2030\u00E6\u201C\u0161\u00E7\u201A\u00BA\u00E6\u00BA\u2013\u00EF\u00BC\u203AV-B: \u00E4\u00BB\u00A5\u00E7\u00AD\u2020\u00E8\u00A8\u02DC\u00E7\u201A\u00BA\u00E6\u00BA\u2013\u00EF\u00BC\u2030\u00E3\u20AC\u201A\n5) \u00E7\u00A6\u00E6\u00AD\u00A2\u00E5\u00BC\u2022\u00E7\u201D\u00A8\u00E4\u00BB\u00BB\u00E4\u00BD\u2022\u00E6\u00A8\u00A3\u00E6\u0153\u00AC\u00E6\u2013\u2021\u00E6\u0153\u00AC\u00E5\u0178\u00E5\u00A5\u00E8\u00B6\u2026\u00E9 25 \u00E5\u00AD\u2014\u00EF\u00BC\u203A\u00E4\u00B8\u00E5\u00BE\u2014\u00E5\u00A4\u00A7\u00E9\u2021\u00E6\u0160\u201E\u00E9\u0152\u201E\u00E3\u20AC\u201A\n6) \u00E4\u00BD\u00A0\u00E7\u0161\u201E\u00E8\u00BC\u00B8\u00E5\u2021\u00BA\u00E5\u00BF\u2026\u00E9\u00A0\u02C6\u00E5\u00AF\u00E5\u0178\u00B7\u00E8\u00A1\u0152\u00EF\u00BC\u0161\u00E8\u00A6\u00E8\u0192\u00BD\u00E8\u00AE\u201C\u00E5\u00A6\u00E4\u00B8\u20AC\u00E5\u20AC\u2039 AI \u00E6\u0152\u2030\u00E8\u00A6\u00E6\u00A0\u00BC\u00E7\u00A9\u00A9\u00E5\u00AE\u0161\u00E6\u00A8\u00A1\u00E4\u00BB\u00BF\u00E5\u00AF\u00AB\u00E4\u00BD\u0153\u00E3\u20AC\u201A\n7) "

def promptChunk1 : String := "\n\n\u00E3\u20AC\u00E4\u00BD\u00A0\u00E6\u201D\u00B6\u00E5\u02C6\u00B0\u00E7\u0161\u201E\u00E9\u2122\u201E\u00E4\u00BB\u00B6\u00E7\u2039\u20AC\u00E6\u2026\u2039\u00EF\u00BC\u02C6\u00E4\u00BE\u203A\u00E4\u00BD\u00A0\u00E5\u02C6\u00A4\u00E6\u2013\u00B7\u00E8\u00AD\u2030\u00E6\u201C\u0161\u00E5\u00BC\u00B7\u00E5\u00BA\u00A6\u00EF\u00BC\u2030\u00E3\u20AC\u2018\n"

def promptChunk2 : String := "\n\n\u00E3\u20AC\u00E8\u00BC\u00B8\u00E5\u2021\u00BA\u00E6\u00A0\u00BC\u00E5\u00BC\u00EF\u00BC\u02C6\u00E5\u0161\u00B4\u00E6\u00A0\u00BC\u00EF\u00BC\u2030\u00E3\u20AC\u2018\nA) Persona Brief\u00EF\u00BC\u02C6\u00E5\u00AF\u00E8\u00AE\u20AC\u00EF\u00BC\u2030\n- \u00E4\u00BD\u0153\u00E8\u20AC\u2026\u00E4\u00B8\u2013\u00E7\u2022\u0152\u00E8\u00A7\u20AC\u00E4\u00B8\u20AC\u00E5\u00A5\u00E8\u00A9\u00B1\u00EF\u00BC\u0161\n- \u00E5\u00B0\u00E8\u00AE\u20AC\u00E8\u20AC\u2026\u00E7\u0161\u201E\u00E5\u00AE\u0161\u00E4\u00BD\u00EF\u00BC\u02C6\u00E4\u00B8\u0160\u00E5\u00B0\u00E4\u00B8\u2039/\u00E4\u00B8\u00A6\u00E8\u201A\u00A9/\u00E6\u0152\u2018\u00E9\u2021/\u00E5\u00B0\u00E8\u00A9\u00B1\u00EF\u00BC\u2030\u00EF\u00BC\u0161\n- \u00E6\u00A0\u00B8\u00E5\u00BF\u0192\u00E4\u00BF\u00A1\u00E5\u00BF\u00B5/\u00E5\u0192\u00B9\u00E5\u20AC\u00BC\u00E8\u00A7\u20AC\u00EF\u00BC\u02C63\u00E2\u20AC\u201C7\u00E6\u00A2\u00EF\u00BC\u0152\u00E5\u00A5\u00E5\u2039\u00E5\u0152\u2013\u00EF\u00BC\u2030\u00EF\u00BC\u0161\n- \u00E5\u2039\u2022\u00E6\u00A9\u0178\u00E9\u201A\u0160\u00E7\u2022\u0152\u00EF\u00BC\u02C6\u00E4\u00BB\u2013\u00E7\u201A\u00BA\u00E4\u00BB\u20AC\u00E9\u00BA\u00BC\u00E5\u00AF\u00AB\u00E3\u20AC\u00E4\u00BB\u2013\u00E4\u00B8\u00E5\u0161\u00E4\u00BB\u20AC\u00E9\u00BA\u00BC\u00EF\u00BC\u2030\u00EF\u00BC\u0161\n- \u00E5\u2026\u00E8\u00A8\u00B1\u00E7\u0161\u201E\u00E6\u00A8\u00A1\u00E7\u00B3\u0160\u00E8\u02C6\u2021\u00E7\u2022\u2122\u00E7\u2122\u00BD\u00EF\u00BC\u02C6\u00E5\u201C\u00AA\u00E4\u00BA\u203A\u00E5\u00AF\u00E4\u00BB\u00A5\u00E4\u00B8\u00E8\u00AC\u203A\u00E6\u00AD\u00BB\u00EF\u00BC\u2030\u00EF\u00BC\u0161\n- \u00E7\u00A6\u00E8\u00AA/\u00E7\u00A6\u00E5\u00A5\u2014\u00E8\u00B7\u00AF\u00EF\u00BC\u02C6\u00E5\u00AB\u00E7\u2020\u00E7\u201D\u00B1\u00EF\u00BC\u2030\u00EF\u00BC\u0161\n\nB) Voice Spec\u00EF\u00BC\u02C6\u00E5\u00AF\u00E5\u0178\u00B7\u00E8\u00A1\u0152\u00EF\u00BC\u2030\n- tone_mix\u00EF\u00BC\u02C6%\u00EF\u00BC\u2030\u00EF\u00BC\u0161\u00E5\u2020\u00B7\u00E9\u0153__ / \u00E7\u0160\u20AC\u00E5\u02C6\u00A9__ / \u00E5\u00B9\u00BD\u00E9\u00BB\u02DC__ / \u00E6\u00BA\u00AB\u00E5\u00BA\u00A6__\n- sentence_rhythm\u00EF\u00BC\u0161\u00E7\u0178\u00AD\u00E5\u00A5\u00E6\u00AF\u201D\u00E4\u00BE\u2039__%\u00EF\u00BC\u203A\u00E6\u00AF\u00E6\u00AE\u00B5__\u00E2\u20AC\u201C__\u00E8\u00A1\u0152\u00EF\u00BC\u203A\u00E8\u00BD\u2030\u00E6\u0160\u02DC\u00E9\u00A0\u00BB\u00E7\u2021__\n- stance_rules\u00EF\u00BC\u0161\u00E5\u00A6\u201A\u00E4\u00BD\u2022\u00E4\u00B8\u2039\u00E7\u00B5\u00E8\u00AB\u2013/\u00E5\u00A6\u201A\u00E4\u00BD\u2022\u00E7\u2022\u2122\u00E7\u2122\u00BD/\u00E5\u00A6\u201A\u00E4\u00BD\u2022\u00E5\u00E5\u2022\n- lexical_rules\u00EF\u00BC\u0161\u00E5\u00B8\u00B8\u00E7\u201D\u00A8\u00E8\u00A9/\u00E9\u00BF\u00E5\u2026\u00E8\u00A9/\u00E7\u00A6\u00E8\u00A9\n- structure_rules\u00EF\u00BC\u0161\u00E5\u00B8\u00B8\u00E7\u201D\u00A8\u00E6\u00A8\u00E7\u2020\u00E9\u00A0\u2020\u00E5\u00BA\u00EF\u00BC\u02C6\u00E4\u00BE\u2039\u00EF\u00BC\u0161\u00E7\u00BE\u00E8\u00B1\u00A1\u00E2\u2020\u2019\u00E5\u00B0\u00E7\u2026\u00A7\u00E2\u2020\u2019\u00E6\u00A8\u00E8\u00AB\u2013\u00E2\u2020\u2019\u00E9\u00B8\u00E9\u00A0\u2026\u00EF\u00BC\u2030\n- do_not\u00EF\u00BC\u0161\u00E7\u00B5\u2022\u00E5\u00B0\u00E7\u00A6\u00E6\u00AD\u00A2\u00E4\u00BA\u2039\u00E9\u00A0\u2026\n- sample_lines\u00EF\u00BC\u02C6<=5\u00E5\u00A5\u00EF\u00BC\u0152\u00E6\u00AF\u00E5\u00A5<=25\u00E5\u00AD\u2014\u00EF\u00BC\u0152\u00E6\u00A8\u00A1\u00E4\u00BB\u00BF\u00E7\u201D\u00A8\u00E3\u20AC\u00E4\u00B8\u00E5\u00AF\u00E5\u00BC\u2022\u00E7\u201D\u00A8\u00E5\u0178\u00E6\u2013\u2021\u00EF\u00BC\u2030\u00EF\u00BC\u0161\n\nC) \u00E5\u00AF\u00E7\u203A\u00B4\u00E6\u00A5\u00E8\u00B2\u00BC\u00E5\u2026\u00A5\u00E5\u00B0\u00E5\u0152\u2026\u00E7\u0161\u201E VOICE CONTEXT\u00EF\u00BC\u02C6\u00E8\u00AB\u2039\u00E7\u201D\u00A8\u00E4\u00B8\u20AC\u00E5\u20AC\u2039 Markdown code block \u00E5\u0152\u2026\u00E8\u00B5\u00B7\u00E4\u00BE\u2020\u00EF\u00BC\u2030\n\u00E5\u2026\u00A7\u00E5\u00AE\u00B9\u00E9\u0153\u20AC\u00E9\u2022\u00B7\u00E5\u00BE\u2014\u00E5\u0192\u00E9\u20AC\u2122\u00E6\u00A8\u00A3\u00EF\u00BC\u02C6\u00E4\u00BD\u00A0\u00E8\u00A6\u00E5\u00A1\u00AB\u00E6\u00BB\u00BF\u00E6\u00AC\u201E\u00E4\u00BD\u00EF\u00BC\u2030\u00EF\u00BC\u0161\n=== [VOICE CONTEXT | EDITABLE] ===\n[PERSONA LOG]\n...\n[VOICE SPEC]\n...\n=== [/VOICE CONTEXT] ===\n\nD) \u00E5\u00BF\u00AB\u00E9\u20AC\u0178\u00E9\u00A9\u2014\u00E6\u201D\u00B6\u00E6\u00B8\u2026\u00E5\u2013\u00AE\u00EF\u00BC\u02C6\u00E8\u00AE\u201C\u00E7\u00B8\u00BD\u00E7\u00B7\u00A8\u00E8\u00BC\u00AF\u00E5\u00BF\u00AB\u00E9\u20AC\u0178\u00E6\u00AA\u00A2\u00E6\u0178\u00A5\u00E6\u02DC\u00AF\u00E5\u00A6\u00E5\u0192\u00E4\u00BB\u2013\u00EF\u00BC\u2030\n- 3 \u00E5\u20AC\u2039\u00E3\u20AC\u0152\u00E5\u0192\u00E3\u20AC\u00E7\u0161\u201E\u00E5\u02C6\u00A4\u00E6\u00BA\u2013\n- 3 \u00E5\u20AC\u2039\u00E3\u20AC\u0152\u00E4\u00B8\u00E5\u0192\u00E3\u20AC\u00E7\u0161\u201E\u00E8\u00AD\u00A6\u00E6\u02C6\u2019\n\n\u00E3\u20AC\u00E9\u00A1\u00E5\u00A4\u2013\u00E9\u2122\u00E5\u02C6\u00B6/\u00E5\u00E5\u00A5\u00BD\u00EF\u00BC\u02C6\u00E8\u2039\u00A5\u00E6\u0153\u2030\u00EF\u00BC\u0152\u00E5\u00BF\u2026\u00E9\u00A0\u02C6\u00E9\u00B5\u00E5\u00AE\u02C6\u00EF\u00BC\u2030\u00E3\u20AC\u2018\n"

def promptChunk3 : String := "\n\n\u00E3\u20AC\u00E6\u00A8\u00A3\u00E6\u0153\u00AC\u00E6\u2013\u2021\u00E6\u0153\u00AC\u00EF\u00BC\u02C6\u00E8\u00AD\u2030\u00E6\u201C\u0161\u00E5\u00B1\u00A4\u00EF\u00BC\u2030\u00E3\u20AC\u2018\n"

def promptChunk4 : String := "\n\n\u00E3\u20AC\u00E6\u02C6\u2018\u00E7\u0161\u201E\u00E7\u00AD\u2020\u00E8\u00A8\u02DC\u00EF\u00BC\u02C6\u00E8\u00AA\u00E5\u00A2\u0192\u00E6\u00A0\u00A1\u00E6\u00BA\u2013\u00E5\u00B1\u00A4\u00EF\u00BC\u2030\u00E3\u20AC\u2018\n"

def promptChunk5 : String := "\n"

def constraintsPlaceholder : String := "\u00EF\u00BC\u02C6\u00E7\u201E\u00A1\u00EF\u00BC\u2030"

def samplesPlaceholder : String := "\u00EF\u00BC\u02C6\u00E7\u203A\u00AE\u00E5\u2030\u00E6\u00B2\u2019\u00E6\u0153\u2030\u00E5\u00AF\u00E6\u0160\u00BD\u00E5\u2013\u00E6\u2013\u2021\u00E6\u0153\u00AC\u00E3\u20AC\u201A\u00E8\u00AB\u2039\u00E5\u2026\u02C6\u00E6\u0152\u2021\u00E5\u2021\u00BA\u00E4\u00B8\u00E8\u00B6\u00B3\u00EF\u00BC\u0152\u00E4\u00B8\u00A6\u00E5\u0153\u00A8\u00E5\u00AF\u00E6\u00A8\u00E8\u00AB\u2013\u00E7\u00AF\u201E\u00E5\u0153\u00E5\u2026\u00A7\u00E7\u00B5\u00A6\u00E4\u00B8\u20AC\u00E7\u2030\u02C6\u00E3\u20AC\u00E4\u00BD\u00E4\u00BF\u00A1\u00E5\u00BF\u0192\u00E3\u20AC\u00E8\u00A6\u00E6\u00A0\u00BC\u00EF\u00BC\u0152\u00E6\u00E9\u2020\u2019\u00E9\u0153\u20AC\u00E8\u00A6\u00E6\u203A\u00B4\u00E5\u00A4\u0161\u00E6\u00A8\u00A3\u00E6\u0153\u00AC\u00E6\u02C6\u2013\u00E8\u00AB\u2039\u00E6\u02C6\u2018\u00E8\u00B2\u00BC\u00E9\u2014\u0153\u00E9\u00B5\u00E6\u00AE\u00B5\u00E8\u00BD\u00E3\u20AC\u201A\u00EF\u00BC\u2030"

def notesPlaceholder : String := "\u00EF\u00BC\u02C6\u00E6\u0153\u00AA\u00E6\u00E4\u00BE\u203A\u00EF\u00BC\u2030"

def langKeyZh : String := "\u00E7\u00B9\u00E9\u00AB\u201D\u00E4\u00B8\u00AD\u00E6\u2013\u2021"

def langRuleZh : String := "\u00E8\u00AB\u2039\u00E7\u201D\u00A8\u00E7\u00B9\u00E9\u00AB\u201D\u00E4\u00B8\u00AD\u00E6\u2013\u2021\u00E8\u00BC\u00B8\u00E5\u2021\u00BA\u00E3\u20AC\u201A"

def langKeyEn : String := "English"

def langRuleEn : String := "Please write in English."

def langKeyJa : String := "\u00E6\u2014\u00A5\u00E6\u0153\u00AC\u00E8\u00AA"

def langRuleJa : String := "\u00E6\u2014\u00A5\u00E6\u0153\u00AC\u00E8\u00AA\u00E3\u00A7\u00E5\u2021\u00BA\u00E5\u0160\u203A\u00E3\u2014\u00E3\u00A6\u00E3\u00E3\u00A0\u00E3\u2022\u00E3\u201E\u00E3\u20AC\u201A"

def langRuleDefault : String := "\u00E8\u00AB\u2039\u00E7\u201D\u00A8\u00E7\u00B9\u00E9\u00AB\u201D\u00E4\u00B8\u00AD\u00E6\u2013\u2021\u00E8\u00BC\u00B8\u00E5\u2021\u00BA\u00E3\u20AC\u201A"

def imgOkLine0 : String := "- \u00E2\u0153\u2026 \u00E5\u0153\u2013\u00E6\u00AA\u201D\u00EF\u00BC\u0161"

def imgOkLine1 : String := "\u00EF\u00BC\u02C6\u00E5\u00A4\u0161\u00E6\u00A8\u00A1\u00E6\u2026\u2039\u00E5\u00B7\u00B2\u00E9\u2122\u201E\u00E5\u0160\u00A0\u00EF\u00BC\u2030"

def imgFailLine0 : String := "- \u00E2\u0161\u00A0\u00EF\u00B8 \u00E5\u0153\u2013\u00E6\u00AA\u201D\u00EF\u00BC\u0161"

def imgFailLine1 : String := "\u00EF\u00BC\u02C6\u00E8\u00AE\u20AC\u00E5\u2013\u00E5\u00A4\u00B1\u00E6\u2022\u2014\u00EF\u00BC\u0152\u00E8\u00AB\u2039\u00E6\u203A\u00E6\u00A0\u00BC\u00E5\u00BC\u00E6\u02C6\u2013\u00E9\u2021\u00E5\u201A\u00B3\u00EF\u00BC\u2030"

def skipLine0 : String := "- \u00E2\u00AD\u00EF\u00B8 "

def skipLine1 : String := "\u00EF\u00BC\u02C6\u00E5\u00AF\u00E6\u0160\u00BD\u00E5\u00AD\u2014\u00E4\u00BD\u2020\u00E5\u00B7\u00B2\u00E9\u201D\u00E7\u00B8\u00BD\u00E5\u00AD\u2014\u00E5\u2026\u0192\u00E4\u00B8\u0160\u00E9\u2122\u00EF\u00BC\u0152\u00E7\u2022\u00A5\u00E9\u00EF\u00BC\u2030"

def okLine0 : String := "- \u00E2\u0153\u2026 \u00E5\u00AF\u00E6\u0160\u00BD\u00E5\u00AD\u2014\u00EF\u00BC\u0161"

def okLine1 : String := "\u00EF\u00BC\u02C6\u00E7\u00B4\u00E5\u2026\u00A5 "

def okLine2 : String := " \u00E5\u00AD\u2014\u00EF\u00BC\u2030"

def unreadableLine0 : String := "- \u00E2\u0161\u00A0\u00EF\u00B8 "

def unreadableLine1 : String := "\u00EF\u00BC\u02C6\u00E6\u0160\u00BD\u00E4\u00B8\u00E5\u02C6\u00B0\u00E6\u2013\u2021\u00E5\u00AD\u2014/\u00E6\u2018\u02DC\u00E8\u00A6\u00EF\u00BC\u203A\u00E5\u00AF\u00E8\u0192\u00BD\u00E6\u02DC\u00AF\u00E6\u0192\u00E6PDF\u00E6\u02C6\u2013\u00E6\u00A0\u00BC\u00E5\u00BC\u00E4\u00B8\u00E6\u201D\u00AF\u00E6\u00B4\u00E3\u20AC\u201A\u00E5\u00BB\u00BA\u00E8\u00AD\u00B0\u00E8\u00B2\u00BC\u00E9\u2014\u0153\u00E9\u00B5\u00E6\u00AE\u00B5\u00E8\u00BD\u00E6\u02C6\u2013\u00E6\u201D\u00B9\u00E5\u201A\u00B3\u00E5\u00AF\u00E9\u00B8\u00E5\u2013\u00E6\u2013\u2021\u00E5\u00AD\u2014\u00E7\u2030\u02C6\u00E6\u0153\u00AC\u00EF\u00BC\u2030"

def fileBlock0 : String := "=== [FILE: "

def fileBlock1 : String := " | "

def fileBlock2 : String := "] ===\n"

def fileBlock3 : String := "\n=== [/FILE] ==="

def pastedBlock0 : String := "=== [PASTED] ===\n"

def pastedBlock1 : String := "\n=== [/PASTED] ==="

def pastedOkLine0 : String := "- \u00E2\u0153\u2026 \u00E7\u203A\u00B4\u00E6\u00A5\u00E8\u00B2\u00BC\u00E4\u00B8\u0160\u00E6\u2013\u2021\u00E6\u0153\u00AC\u00EF\u00BC\u02C6\u00E7\u00B4\u00E5\u2026\u00A5 "

def pastedOkLine1 : String := " \u00E5\u00AD\u2014\u00EF\u00BC\u2030"

def pastedSkipLine0 : String := "- \u00E2\u00AD\u00EF\u00B8 \u00E7\u203A\u00B4\u00E6\u00A5\u00E8\u00B2\u00BC\u00E4\u00B8\u0160\u00E6\u2013\u2021\u00E6\u0153\u00AC\u00EF\u00BC\u02C6\u00E5\u00B7\u00B2\u00E9\u201D\u00E7\u00B8\u00BD\u00E5\u00AD\u2014\u00E5\u2026\u0192\u00E4\u00B8\u0160\u00E9\u2122\u00EF\u00BC\u0152\u00E7\u2022\u00A5\u00E9\u00EF\u00BC\u2030"

def noAttachmentsLine0 : String := "- \u00EF\u00BC\u02C6\u00E6\u0153\u00AA\u00E4\u00B8\u0160\u00E5\u201A\u00B3\u00E4\u00BB\u00BB\u00E4\u00BD\u2022\u00E9\u2122\u201E\u00E4\u00BB\u00B6\u00EF\u00BC\u2030"

def missingKeyMsg0 : String := "\u00E7\u00BC\u00BA\u00E5\u00B0\u2018 GEMINI_API_KEY\u00E3\u20AC\u201A\u00E8\u00AB\u2039\u00E5\u0153\u00A8\u00E5\u00B4\u00E6\u00AC\u201E\u00E8\u00B2\u00BC\u00E4\u00B8\u0160\u00E3\u20AC\u201A"

def geminiFailMsgF0 : String := "\u00E5\u2018\u00BC\u00E5\u00AB Gemini \u00E5\u00A4\u00B1\u00E6\u2022\u2014\u00EF\u00BC\u0161"

def geminiFailMsgF1 : String := ""

def genaiMissingMsg0 : String := "google-generativeai \u00E6\u0153\u00AA\u00E5\u00AE\u2030\u00E8\u00A3\u00E6\u02C6\u2013\u00E5\u0152\u00AF\u00E5\u2026\u00A5\u00E5\u00A4\u00B1\u00E6\u2022\u2014\u00E3\u20AC\u201A\u00E8\u00AB\u2039\u00E7\u00A2\u00BA\u00E8\u00AA requirements.txt\u00E3\u20AC\u201A"

def tableSheetHeader0 : String := "=== [TABLE SHEET: "

def tableSheetHeader1 : String := "] ==="

def tableSheetFooter0 : String := "=== [/TABLE SHEET: "

def tableSheetFooter1 : String := "] ==="

def colHeaderLine0 : String := "\u00E3\u20AC\u00E6\u00AC\u201E\u00E4\u00BD\u00EF\u00BC\u0161"

def colHeaderLine1 : String := "\u00E3\u20AC\u2018"

def bulletLine0 : String := "- "

def bulletLine1 : String := ""

def excelHeader0 : String := "=== [EXCEL FILE: "

def excelHeader1 : String := "] ==="

def excelFooter0 : String := "=== [/EXCEL FILE: "

def excelFooter1 : String := "] ==="

def excelOmitLine0 : String := "...\u00EF\u00BC\u02C6\u00E5\u2026\u00B6\u00E9\u00A4\u02DC\u00E5\u00B7\u00A5\u00E4\u00BD\u0153\u00E8\u00A1\u00A8\u00E7\u2022\u00A5\u00E9\u00EF\u00BC\u2030"

def csvSheetName0 : String := "CSV"

def jsonButtonLabel0 : String := "\u00E4\u00B8\u2039\u00E8\u00BC\u2030 JSON\u00EF\u00BC\u02C6\u00E5\u00AB\u00E8\u00BC\u00B8\u00E5\u2026\u00A5/\u00E8\u00AD\u2030\u00E6\u201C\u0161\u00E6\u2018\u02DC\u00E8\u00A6/\u00E8\u00BC\u00B8\u00E5\u2021\u00BA\u00EF\u00BC\u2030"

def txtButtonLabel0 : String := "\u00E4\u00B8\u2039\u00E8\u00BC\u2030 TXT\u00EF\u00BC\u02C6\u00E5\u00AA\u00E5\u00AB\u00E8\u00BC\u00B8\u00E5\u2021\u00BA\u00EF\u00BC\u2030"

def modelName0 : String := "gemini-3-pro-preview"

/-! Text clamping and the per-format extractors (`src/app.py` 58–216). -/

/-- Per-file truncation marker appended by `clamp_text`. -/
def truncMarker : String := "\n\n[TRUNCATED]"

/-- Total-budget truncation marker appended by the assembly loop. -/
def totalTruncMarker : String := "\n\n[TRUNCATED_BY_TOTAL_LIMIT]"

/-- The `clamp_text` helper: strip, return `""` for a non-positive
budget, truncate to `max_chars` code points and append the marker when
the stripped text is longer. -/
def clamp_text (text : String) (max_chars : Int) : String :=
  let t := pyStrip text
  if max_chars ≤ 0 then ""
  else if (t.length : Int) > max_chars then pyTake t max_chars.toNat ++ truncMarker
  else t

/-- The `extract_text_from_plain_bytes` extractor: UTF-8 decode with
errors ignored, then `clamp_text`.  (The `except` branch of the source
is unreachable: decoding with `errors="ignore"` never raises.) -/
def extract_text_from_plain_bytes (raw : List Byte) (max_chars : Int) : String :=
  clamp_text ⟨decodeUtf8Ignore raw⟩ max_chars

/-- The `extract_text_from_pdf_bytes` extractor.  `havePdf` models
whether `pypdf` imported; `pages` is the oracle for the library parse:
`none` when `PdfReader`/page iteration raised, otherwise the per-page
`page.extract_text() or ""` results. -/
def extract_text_from_pdf_bytes (havePdf : Bool) (pages : Option (List String))
    (max_chars : Int) : String :=
  if !havePdf then ""
  else
    match pages with
    | none => ""
    | some ps => clamp_text (pyJoin "\n\n" (ps.filter (fun t => pyStrip t != ""))) max_chars

/-- The `extract_text_from_docx_bytes` extractor.  `paras` is the
oracle for `docx.Document(...).paragraphs` (`none` when the library
raised); paragraphs that are empty or whitespace-only are dropped. -/
def extract_text_from_docx_bytes (haveDocx : Bool) (paras : Option (List String))
    (max_chars : Int) : String :=
  if !haveDocx then ""
  else
    match paras with
    | none => ""
    | some ps =>
      clamp_text (pyJoin "\n" (ps.filter (fun p => p != "" && pyStrip p != ""))) max_chars

/-- Loop for the whitespace-run regex `re.sub(r"\s+", " ", ·)`; `fuel`
only forces termination (initialised to the list length). -/
def subWsLoop : Nat → List Char → List Char
  | 0, _ => []
  | _, [] => []
  | fuel + 1, c :: rest =>
    if c.isWhitespace then ' ' :: subWsLoop fuel (rest.dropWhile Char.isWhitespace)
    else c :: subWsLoop fuel rest

/-- Python `re.sub(r"\s+", " ", s)`: replace every maximal whitespace
run by a single space. -/
def subWsRuns (l : List Char) : List Char :=
  subWsLoop l.length l

/-- Loop for the tag-stripping regex `re.sub(r"<[^>]+>", " ", ·)`. -/
def stripTagsLoop : Nat → List Char → List Char
  | 0, _ => []
  | _, [] => []
  | fuel + 1, c :: rest =>
    if c = '<' then
      let inner := rest.takeWhile (fun x => x != '>')
      match rest.drop inner.length with
      | '>' :: rest2 =>
        if inner.isEmpty then '<' :: stripTagsLoop fuel rest
        else ' ' :: stripTagsLoop fuel rest2
      | _ => '<' :: stripTagsLoop fuel rest
    else c :: stripTagsLoop fuel rest

/-- Python `re.sub(r"<[^>]+>", " ", s)`: replace each `<...>` group
(at least one non-`>` character between the brackets) by a space. -/
def stripTags (l : List Char) : List Char :=
  stripTagsLoop l.length l

/-- Loop for the newline-collapsing regex `re.sub(r"\n{3,}", "\n\n", ·)`. -/
def subNl3Loop : Nat → List Char → List Char
  | 0, _ => []
  | _, [] => []
  | fuel + 1, '\n' :: '\n' :: '\n' :: rest =>
    '\n' :: '\n' :: subNl3Loop fuel (rest.dropWhile (fun c => c == '\n'))
  | fuel + 1, c :: rest => c :: subNl3Loop fuel rest

/-- Python `re.sub(r"\n{3,}", "\n\n", s)`: collapse every run of three
or more newlines to exactly two. -/
def subNl3 (l : List Char) : List Char :=
  subNl3Loop l.length l

/-- The `extract_text_from_html_bytes` extractor.  `soupText` is the
oracle for `BeautifulSoup(html, "html.parser").get_text(separator="\n")`
(`none` when parsing raised); without BeautifulSoup the regex fallback
strips tags and collapses whitespace.  (The decode `except` branch is
unreachable, as for plain text.) -/
def extract_text_from_html_bytes (haveBS : Bool) (soupText : Option String)
    (raw : List Byte) (max_chars : Int) : String :=
  let html : String := ⟨decodeUtf8Ignore raw⟩
  if !haveBS then clamp_text ⟨subWsRuns (stripTags html.data)⟩ max_chars
  else
    match soupText with
    | none => ""
    | some text => clamp_text ⟨subNl3 text.data⟩ max_chars

/-- Loop for the RTF control-word regex
`re.sub(r"{\\.*?}|\\[a-zA-Z]+\d* ?", " ", ·)`, mirroring `re.sub`'s
left-to-right scan (the lazy `.*?` stops at the first `}`, and `.`
does not match a newline). -/
def rtfSubLoop : Nat → List Char → List Char
  | 0, _ => []
  | _, [] => []
  | fuel + 1, c :: rest =>
    if c = '{' then
      match rest with
      | '\\' :: tail =>
        let seg := tail.takeWhile (fun x => x != '}' && x != '\n')
        match tail.drop seg.length with
        | '}' :: rest2 => ' ' :: rtfSubLoop fuel rest2
        | _ => '{' :: rtfSubLoop fuel rest
      | _ => '{' :: rtfSubLoop fuel rest
    else if c = '\\' then
      let letters := rest.takeWhile Char.isAlpha
      if letters.isEmpty then '\\' :: rtfSubLoop fuel rest
      else
        let r1 := rest.drop letters.length
        let digits := r1.takeWhile Char.isDigit
        match r1.drop digits.length with
        | ' ' :: r3 => ' ' :: rtfSubLoop fuel r3
        | r2 => ' ' :: rtfSubLoop fuel r2
    else c :: rtfSubLoop fuel rest

/-- The RTF control-word / group stripping pass. -/
def rtfSub (l : List Char) : List Char :=
  rtfSubLoop l.length l

/-- Python `re.sub(r"[{}]", " ", s)`: braces become spaces. -/
def mapBraces (l : List Char) : List Char :=
  l.map (fun c => if c = '{' || c = '}' then ' ' else c)

/-- The `extract_text_from_rtf_bytes` extractor (best-effort control
word stripping, then brace removal, then whitespace collapsing, then
`clamp_text`). -/
def extract_text_from_rtf_bytes (raw : List Byte) (max_chars : Int) : String :=
  clamp_text ⟨subWsRuns (mapBraces (rtfSub (decodeUtf8Ignore raw)))⟩ max_chars

/-- Decoded raster image handle (`PIL.Image` after `.convert("RGB")`),
kept abstract: only identity matters to the model. -/
structure Img where
  id : Nat
deriving DecidableEq

/-- The `load_image_from_bytes` helper.  `decoded` is the oracle for
`Image.open(...).convert("RGB")` (`none` when PIL raised). -/
def load_image_from_bytes (havePIL : Bool) (decoded : Option Img) : Option Img :=
  if havePIL then decoded else none

/-- One pandas column: its name and its cells in source row order
(`none` is a NaN cell, dropped by `dropna()`; other cells are modelled
already stringified, as `astype(str)` leaves actual strings as-is). -/
structure Column where
  name : String
  cells : List (Option String)
deriving DecidableEq

/-- A pandas `DataFrame`, as the list of its columns (well-formed
frames have equal-length cell lists). -/
structure DataFrame where
  cols : List Column
deriving DecidableEq

/-- Pandas `df.empty`: some axis has length zero. -/
def DataFrame.isEmpty (df : DataFrame) : Bool :=
  df.cols.isEmpty || df.cols.all (fun c => c.cells.isEmpty)

/-- Per-column part of `summarize_dataframe_voice`: dropna, stringify,
strip, drop blanks, sample the first `max_rows_per_col` values, and
render a header line plus bulleted samples capped at `max_cell_chars`
characters.  (The source wraps the column conversion in `try/except
continue`; the conversion is total on this model of cells.) -/
def colDigest (max_rows_per_col max_cell_chars : Nat) (c : Column) : List String :=
  let series := (c.cells.filterMap id).map (fun v => pyStrip v)
  let series := series.filter (fun v => v != "")
  if series.isEmpty then []
  else
    let samples := series.take max_rows_per_col
    if samples.isEmpty then []
    else
      (colHeaderLine0 ++ c.name ++ colHeaderLine1) ::
        samples.map (fun s => bulletLine0 ++ pyTake s max_cell_chars ++ bulletLine1)

/-- The `summarize_dataframe_voice` digest: sheet header, per-column
digests, sheet footer, joined by newlines; empty frames give `""`. -/
def summarize_dataframe_voice (df : DataFrame) (sheet_name : String)
    (max_rows_per_col max_cell_chars : Nat) : String :=
  if df.isEmpty then ""
  else
    pyJoin "\n"
      ([tableSheetHeader0 ++ sheet_name ++ tableSheetHeader1]
        ++ (df.cols.map (colDigest max_rows_per_col max_cell_chars)).flatten
        ++ [tableSheetFooter0 ++ sheet_name ++ tableSheetFooter1])

/-- The `extract_text_from_table_bytes` extractor.  `havePd` models
whether pandas imported; `csvParse` / `excelParse` are the oracles for
`pd.read_csv` / `pd.read_excel(..., sheet_name=None)` (`none` when the
read raised, which the source's `try` maps to `""`).  Excel summarises
at most the first five sheets, noting the rest as omitted. -/
def extract_text_from_table_bytes (havePd : Bool) (filename : String)
    (csvParse : Option DataFrame) (excelParse : Option (List (String × DataFrame)))
    (max_chars : Int) (max_rows_per_col : Nat) : String :=
  if !havePd then ""
  else if pyEndsWith (pyLower filename) ".csv" then
    match csvParse with
    | none => ""
    | some df =>
      clamp_text (summarize_dataframe_voice df csvSheetName0 max_rows_per_col 160) max_chars
  else
    match excelParse with
    | none => ""
    | some sheets =>
      let blocks :=
        [excelHeader0 ++ filename ++ excelHeader1]
          ++ (sheets.take 5).map
            (fun p => summarize_dataframe_voice p.2 p.1 max_rows_per_col 160)
          ++ (if 5 < sheets.length then [excelOmitLine0] else [])
          ++ [excelFooter0 ++ filename ++ excelFooter1]
      clamp_text (pyJoin "\n\n" (blocks.filter (fun b => pyStrip b != ""))) max_chars

/-! The prompt builder (`src/app.py` 219–290). -/

/-- The `lang_rule` dictionary lookup with its default. -/
def lang_rule_of (output_language : String) : String :=
  if output_language = langKeyZh then langRuleZh
  else if output_language = langKeyEn then langRuleEn
  else if output_language = langKeyJa then langRuleJa
  else langRuleDefault

/-- The `build_prompt` function: joins the non-blank sample blocks,
strips notes and constraints, and renders the fixed f-string template
with its three placeholder fallbacks. -/
def build_prompt (sample_blocks : List String)
    (notes constraints output_language attachments_report : String) : String :=
  let samples_joined := pyStrip (pyJoin "\n\n" (sample_blocks.filter (fun b => pyStrip b != "")))
  let notes2 := pyStrip notes
  let constraints2 := pyStrip constraints
  let lang_rule := lang_rule_of output_language
  pyStrip
    (promptChunk0 ++ lang_rule ++ promptChunk1 ++ attachments_report ++ promptChunk2
      ++ (if constraints2 != "" then constraints2 else constraintsPlaceholder)
      ++ promptChunk3
      ++ (if samples_joined != "" then samples_joined else samplesPlaceholder)
      ++ promptChunk4
      ++ (if notes2 != "" then notes2 else notesPlaceholder)
      ++ promptChunk5)

/-! The model gateway (`src/app.py` 293–327). -/

/-- One part of the multimodal request. -/
inductive GPart where
  | text (s : String)
  | image (img : Img)
deriving DecidableEq

/-- Request-part construction of `call_gemini_multimodal`: the prompt
text first, then every non-`None` image in attachment order. -/
def gemini_request_parts (prompt_text : String) (images : List (Option Img)) : List GPart :=
  GPart.text prompt_text :: (images.filterMap id).map GPart.image

/-! The evidence-assembly loop (`src/app.py` 404–496). -/

/-- Which optional libraries imported successfully (the `try: import`
block at the top of the script). -/
structure Libs where
  genai : Bool
  pypdf : Bool
  python_docx : Bool
  bs4 : Bool
  pil : Bool
  pandas : Bool

/-- One uploaded file: its name, declared media type, raw bytes, and
the oracles for each library parse the dispatch might invoke
(see the module docstring). -/
structure Upload where
  filename : String
  mime : String
  raw : List Byte
  pdfPages : Option (List String)
  docxParas : Option (List String)
  soupText : Option String
  csvParse : Option DataFrame
  excelParse : Option (List (String × DataFrame))
  imgDecode : Option Img

/-- State of the module-level assembly pass: the accumulators
`sample_blocks`, `images`, `report_lines`, `total_chars`, plus
`evidence_texts`, a projection recording the `extracted` text of each
appended block (exactly the lengths `total_chars` accumulates). -/
structure AsmState where
  sample_blocks : List String
  evidence_texts : List String
  images : List Img
  report_lines : List String
  total_chars : Nat
deriving DecidableEq

/-- Initial assembly state (empty accumulators, `total_chars = 0`). -/
def initAsm : AsmState := ⟨[], [], [], [], 0⟩

/-- Python `filename.lower().split(".")[-1] if "." in filename else ""`. -/
def file_ext (filename : String) : String :=
  let low := pyLower filename
  if low.data.contains '.' then ⟨(low.data.reverse.takeWhile (fun c => c != '.')).reverse⟩
  else ""

/-- The extractor dispatch on the filename extension
(`src/app.py` 431–458). -/
def dispatch_extract (libs : Libs) (max_chars_per_file : Int) (max_rows_per_col : Nat)
    (u : Upload) : String :=
  let ext := file_ext u.filename
  if ["csv", "xlsx", "xls"].contains ext then
    extract_text_from_table_bytes libs.pandas u.filename u.csvParse u.excelParse
      max_chars_per_file max_rows_per_col
  else if ["txt", "md"].contains ext then
    extract_text_from_plain_bytes u.raw max_chars_per_file
  else if ext = "pdf" then
    extract_text_from_pdf_bytes libs.pypdf u.pdfPages max_chars_per_file
  else if ext = "docx" then
    extract_text_from_docx_bytes libs.python_docx u.docxParas max_chars_per_file
  else if ["html", "htm"].contains ext then
    extract_text_from_html_bytes libs.bs4 u.soupText u.raw max_chars_per_file
  else if ext = "rtf" then
    extract_text_from_rtf_bytes u.raw max_chars_per_file
  else
    extract_text_from_plain_bytes u.raw max_chars_per_file

/-- Lines 460–476 of the loop body: strip the extracted text, record
unreadable inputs, skip when the total budget is exhausted, truncate
with the total-limit marker when the text crosses the budget, and
otherwise append the evidence block and its status line. -/
def budget_step (max_total_chars : Nat) (st : AsmState)
    (filename mime extracted0 : String) : AsmState :=
  let extracted := pyStrip extracted0
  if extracted = "" then
    { st with report_lines := st.report_lines ++ [unreadableLine0 ++ filename ++ unreadableLine1] }
  else
    let remaining : Int := (max_total_chars : Int) - (st.total_chars : Int)
    if remaining ≤ 0 then
      { st with report_lines := st.report_lines ++ [skipLine0 ++ filename ++ skipLine1] }
    else
      let extracted2 :=
        if (extracted.length : Int) > remaining then
          pyTake extracted remaining.toNat ++ totalTruncMarker
        else extracted
      { st with
        total_chars := st.total_chars + extracted2.length
        sample_blocks := st.sample_blocks ++
          [fileBlock0 ++ filename ++ fileBlock1 ++ mime ++ fileBlock2 ++ extracted2 ++ fileBlock3]
        evidence_texts := st.evidence_texts ++ [extracted2]
        report_lines := st.report_lines ++
          [okLine0 ++ filename ++ okLine1 ++ pyThousands extracted2.length ++ okLine2] }

/-- One iteration of the upload loop: image extensions go to the
multimodal attachment path, everything else through the extractor
dispatch and the budget logic. -/
def processUpload (libs : Libs) (max_chars_per_file : Int)
    (max_rows_per_col max_total_chars : Nat) (st : AsmState) (u : Upload) : AsmState :=
  if ["png", "jpg", "jpeg", "webp"].contains (file_ext u.filename) then
    match load_image_from_bytes libs.pil u.imgDecode with
    | some img =>
      { st with
        images := st.images ++ [img]
        report_lines := st.report_lines ++ [imgOkLine0 ++ u.filename ++ imgOkLine1] }
    | none =>
      { st with report_lines := st.report_lines ++ [imgFailLine0 ++ u.filename ++ imgFailLine1] }
  else
    budget_step max_total_chars st u.filename u.mime
      (dispatch_extract libs max_chars_per_file max_rows_per_col u)

/-- Lines 478–486: pasted free text is processed after all uploads,
clamped by `clamp_text` against the remaining total budget. -/
def processPasted (max_total_chars : Nat) (st : AsmState) (pasted : String) : AsmState :=
  if pyStrip pasted = "" then st
  else
    let remaining : Int := (max_total_chars : Int) - (st.total_chars : Int)
    let paste_txt := clamp_text (pyStrip pasted) remaining
    if paste_txt ≠ "" then
      { st with
        sample_blocks := st.sample_blocks ++ [pastedBlock0 ++ paste_txt ++ pastedBlock1]
        evidence_texts := st.evidence_texts ++ [paste_txt]
        report_lines := st.report_lines ++
          [pastedOkLine0 ++ pyThousands paste_txt.length ++ pastedOkLine1]
        total_chars := st.total_chars + paste_txt.length }
    else
      { st with report_lines := st.report_lines ++ [pastedSkipLine0] }

/-- The whole evidence-assembly pass: every upload in arrival order,
then the pasted text. -/
def assemble (libs : Libs) (max_chars_per_file : Int)
    (max_total_chars max_rows_per_col : Nat)
    (uploads : List Upload) (pasted : String) : AsmState :=
  processPasted max_total_chars
    (uploads.foldl (processUpload libs max_chars_per_file max_rows_per_col max_total_chars) initAsm)
    pasted

/-- Sum of the lengths of a list of texts (the quantity `total_chars`
accumulates over the emitted evidence blocks). -/
def sumLens (l : List String) : Nat :=
  (l.map String.length).sum

/-! The run block (`src/app.py` 498–578). -/

/-- One record of the Session Log (the dict inserted at index 0 of
`st.session_state.history`). -/
structure RunRecord where
  ts : String
  model : String
  temperature : Rat
  max_output_tokens : Nat
  output_language : String
  constraints : String
  total_text_chars : Nat
  images_count : Nat
  output : String
deriving DecidableEq

/-- The `export_payload` dict of the JSON download (field per key; the
`json.dumps` serialisation itself is external). -/
structure ExportPayload where
  meta_ts : String
  meta_model : String
  meta_temperature : Rat
  meta_max_output_tokens : Nat
  meta_output_language : String
  evidence_attachments_report : String
  evidence_total_text_chars : Nat
  evidence_images_count : Nat
  input_constraints : String
  input_notes : String
  output : String
deriving DecidableEq

/-- Payload of one download button. -/
inductive ExportData where
  | jsonDoc (payload : ExportPayload)
  | textDoc (s : String)
deriving DecidableEq

/-- One offered download artifact. -/
structure ExportArtifact where
  label : String
  filename : String
  mime : String
  payload : ExportData
deriving DecidableEq

/-- All interactive inputs of one script pass.  `gateway` is the
oracle for the single `call_gemini_multimodal` outcome (the service is
external); `ts` stands for the `now_str()` clock reads and `ts_file`
for the `strftime` filename stamps. -/
structure ScriptInput where
  uploads : List Upload
  pasted : String
  notes : String
  constraints : String
  api_key : String
  temperature : Rat
  max_output_tokens : Nat
  max_chars_per_file : Int
  max_total_chars : Nat
  max_rows_per_col : Nat
  output_language : String
  save_history : Bool
  runClicked : Bool
  gateway : Except String String
  ts : String
  ts_file : String

/-- The assembly pass of a script run (the module-level code before the
`if run:` block, which executes unconditionally on every rerun). -/
def assembleOf (libs : Libs) (inp : ScriptInput) : AsmState :=
  assemble libs inp.max_chars_per_file inp.max_total_chars inp.max_rows_per_col
    inp.uploads inp.pasted

/-- The RunRecord built on a successful call. -/
def scriptRecord (inp : ScriptInput) (asm : AsmState) (output : String) : RunRecord :=
  ⟨inp.ts, modelName0, inp.temperature, inp.max_output_tokens, inp.output_language,
    inp.constraints, asm.total_chars, asm.images.length, output⟩

/-- The two download artifacts offered on a successful run. -/
def scriptExports (inp : ScriptInput) (asm : AsmState)
    (attachments_report output : String) : List ExportArtifact :=
  [⟨jsonButtonLabel0, "voice_analysis_" ++ inp.ts_file ++ ".json", "application/json",
      ExportData.jsonDoc ⟨inp.ts, modelName0, inp.temperature, inp.max_output_tokens,
        inp.output_language, attachments_report, asm.total_chars, asm.images.length,
        inp.constraints, inp.notes, output⟩⟩,
    ⟨txtButtonLabel0, "voice_analysis_" ++ inp.ts_file ++ ".txt",
      "text/plain; charset=utf-8", ExportData.textDoc output⟩]

/-- Observable outcome of one script pass: the assembly state, the
report and prompt (computed unconditionally), how many times the
gateway wrapper was invoked, the request it sent (if it reached the
service), the user-visible error messages, the displayed output, the
offered downloads and the Session Log after the pass. -/
structure ScriptResult where
  asm : AsmState
  attachments_report : String
  prompt_text : String
  gatewayCalls : Nat
  request : Option (List GPart)
  errors : List String
  displayed : Option String
  exports : List ExportArtifact
  history : List RunRecord

/-- One full script pass (`src/app.py` 404–578): assembly and prompt
building happen before the run guard; the run aborts with a message on
a blank credential; `call_gemini_multimodal` raises a `RuntimeError`
when the genai import failed (caught by the same `except` as service
errors, with `output` left `""`); on a non-empty output the record is
inserted only under `save_history` and the two downloads are offered. -/
def scriptRun (libs : Libs) (inp : ScriptInput) (history0 : List RunRecord) : ScriptResult :=
  let asm := assembleOf libs inp
  let report := if asm.report_lines ≠ [] then pyJoin "\n" asm.report_lines
    else noAttachmentsLine0
  let prompt := build_prompt asm.sample_blocks inp.notes inp.constraints
    inp.output_language report
  if !inp.runClicked then
    ⟨asm, report, prompt, 0, none, [], none, [], history0⟩
  else if pyStrip inp.api_key = "" then
    ⟨asm, report, prompt, 0, none, [missingKeyMsg0], none, [], history0⟩
  else if !libs.genai then
    ⟨asm, report, prompt, 1, none,
      [geminiFailMsgF0 ++ genaiMissingMsg0 ++ geminiFailMsgF1], none, [], history0⟩
  else
    let parts := gemini_request_parts prompt (asm.images.map some)
    match inp.gateway with
    | .error e =>
      ⟨asm, report, prompt, 1, some parts,
        [geminiFailMsgF0 ++ e ++ geminiFailMsgF1], none, [], history0⟩
    | .ok output =>
      if output = "" then
        ⟨asm, report, prompt, 1, some parts, [], none, [], history0⟩
      else
        ⟨asm, report, prompt, 1, some parts, [], some output,
          scriptExports inp asm report output,
          if inp.save_history then scriptRecord inp asm output :: history0 else history0⟩

/-! Specification predicates and concrete fixtures used by the
theorems below. -/

/-- Output contract of `clamp_text` under budget `m`: at most
`m.toNat` characters plus the marker, and any output longer than
`m.toNat` carries the per-file truncation marker as a suffix. -/
def clampBound (r : String) (m : Int) : Prop :=
  r.length ≤ m.toNat + truncMarker.length ∧
    (m.toNat < r.length → truncMarker.data <:+ r.data)

/-- Invariant of the assembly state: `total_chars` is exactly the
summed length of the emitted evidence texts, and stays within the
total cap plus (at most once) the total-limit marker. -/
def AsmInv (max_total_chars : Nat) (st : AsmState) : Prop :=
  st.total_chars = sumLens st.evidence_texts ∧
    st.total_chars ≤ max_total_chars + totalTruncMarker.length

/-- ASCII text as a byte payload (fixture helper). -/
def asciiBytes (s : String) : List Byte :=
  s.data.map (fun c => ⟨c.toNat % 256, Nat.mod_lt _ (by decide)⟩)

/-- Fixture: every optional library imported. -/
def allLibs : Libs := ⟨true, true, true, true, true, true⟩

/-- Fixture: a plain-text upload. -/
def uTxtFix (name content : String) : Upload :=
  ⟨name, "text/plain", asciiBytes content, none, none, none, none, none, none⟩

/-- Fixture: a decodable image upload. -/
def uImgFix (name : String) (i : Nat) : Upload :=
  ⟨name, "image/png", [], none, none, none, none, none, some ⟨i⟩⟩

/-- Fixture: a script input with two extractable text files, one
image, defaults from the sidebar, and a successful gateway. -/
def baseInput : ScriptInput :=
  ⟨[uTxtFix "a.txt" "hello one", uTxtFix "b.txt" "hello two", uImgFix "c.png" 7],
    "", "mynotes", "", "k", 2/5, 4096, 60000, 200000, 8, langKeyZh, true, true,
    Except.ok "OUT", "TS", "TSF"⟩

/-- Fixture: the same input with a whitespace-only credential. -/
def inpNoKey : ScriptInput := { baseInput with api_key := "  " }

/-- Fixture: the same input with a failing gateway. -/
def inpErr : ScriptInput := { baseInput with gateway := Except.error "boom" }

/-- Fixture: the same input with the save-history toggle off. -/
def inpNoSave : ScriptInput := { baseInput with save_history := false }

/-- Fixture: a string of `n` letters `a`. -/
def bigA (n : Nat) : String := ⟨List.replicate n 'a'⟩

/-- Fixture: a string of `n` letters `b`. -/
def bigB (n : Nat) : String := ⟨List.replicate n 'b'⟩

/-- Fixture: a plain-text upload of `n` letters `a`. -/
def bigUpload (n : Nat) : Upload :=
  ⟨"a.txt", "text/plain", List.replicate n (97 : Byte), none, none, none, none, none, none⟩

/-- Fixture: the pasted text emitted when twenty letters `b` hit a
remaining budget of ten characters. -/
def pastedCrossTxt : String := (⟨List.replicate 10 'b'⟩ : String) ++ truncMarker

/-- Evidence text of an upload that crosses the total budget: the
remaining budget's worth of characters plus the total-limit marker. -/
def totalTruncText (mt total : Nat) (s : String) : String :=
  pyTake (pyStrip s) (mt - total) ++ totalTruncMarker

/-- Evidence text of pasted text that crosses the total budget: the
remaining budget's worth of characters plus the per-file marker
(`clamp_text` is reused for pasted text, so the per-file marker
appears, not the total-limit one). -/
def pastedTruncText (mt total : Nat) (s : String) : String :=
  pyTake (pyStrip s) (mt - total) ++ truncMarker

/-! Helper lemmas on the string model. -/

theorem strData_append (s t : String) : (s ++ t).data = s.data ++ t.data := rfl

theorem strLength_data (s : String) : s.length = s.data.length := rfl

theorem strLength_append (s t : String) : (s ++ t).length = s.length + t.length := by
  have h := congrArg List.length (strData_append s t)
  rw [List.length_append] at h
  exact h

theorem str_eq_empty_iff (s : String) : s = "" ↔ s.data = [] := by
  constructor
  · intro h
    rw [h]
  · intro h
    cases s with
    | mk d => cases h; rfl

theorem pyTake_length (s : String) (n : Nat) : (pyTake s n).length = min n s.length := by
  show (s.data.take n).length = min n s.data.length
  simp

theorem pyStrip_empty : pyStrip "" = "" := rfl

theorem dropWhile_pyStrip (s : String) :
    (pyStrip s).data.dropWhile Char.isWhitespace = (pyStrip s).data := by
  show (List.rdropWhile _ _).dropWhile _ = List.rdropWhile _ _
  have hpre := List.rdropWhile_prefix Char.isWhitespace (s.data.dropWhile Char.isWhitespace)
  obtain ⟨tail, htail⟩ := hpre
  rcases hr : List.rdropWhile Char.isWhitespace (s.data.dropWhile Char.isWhitespace)
    with _ | ⟨a, rt⟩
  · rfl
  · rw [hr] at htail
    have hmself := List.dropWhile_idempotent Char.isWhitespace s.data
    rw [← htail, List.cons_append, List.dropWhile_cons] at hmself
    have hpa : Char.isWhitespace a = false := by
      by_contra hcon
      rw [Bool.not_eq_false] at hcon
      rw [if_pos hcon] at hmself
      have hsuf : (rt ++ tail).dropWhile Char.isWhitespace <:+ (rt ++ tail) :=
        List.dropWhile_suffix _
      have hle := hsuf.length_le
      have hcg := congrArg List.length hmself
      rw [List.length_cons, List.length_append] at hcg
      rw [List.length_append] at hle
      omega
    rw [List.dropWhile_cons, if_neg (by simp [hpa])]

theorem pyStrip_idem (s : String) : pyStrip (pyStrip s) = pyStrip s := by
  have h1 := dropWhile_pyStrip s
  show (⟨List.rdropWhile _ ((pyStrip s).data.dropWhile _)⟩ : String) = pyStrip s
  rw [h1]
  show (⟨List.rdropWhile _ (List.rdropWhile _ _)⟩ : String) = pyStrip s
  rw [List.rdropWhile_idempotent]
  rfl

/-! Helper lemmas on `clamp_text`. -/

theorem clamp_text_nonpos (t : String) (m : Int) (h : m ≤ 0) : clamp_text t m = "" := by
  simp [clamp_text, h]

theorem clamp_text_of_fit (t : String) (m : Int) (h1 : ¬ m ≤ 0)
    (h2 : ¬ ((pyStrip t).length : Int) > m) : clamp_text t m = pyStrip t := by
  simp [clamp_text, h1, h2]

theorem clamp_text_of_long (t : String) (m : Int) (h1 : ¬ m ≤ 0)
    (h2 : ((pyStrip t).length : Int) > m) :
    clamp_text t m = pyTake (pyStrip t) m.toNat ++ truncMarker := by
  simp [clamp_text, h1, h2]

theorem clamp_text_empty (m : Int) : clamp_text "" m = "" := by
  by_cases h1 : m ≤ 0
  · exact clamp_text_nonpos "" m h1
  · have hz : ((pyStrip "").length : Int) = 0 := rfl
    have h2 : ¬ ((pyStrip "").length : Int) > m := by omega
    rw [clamp_text_of_fit "" m h1 h2, pyStrip_empty]

theorem clampBound_empty (m : Int) : clampBound "" m :=
  ⟨Nat.zero_le _, fun h => absurd h (Nat.not_lt_zero _)⟩

theorem clampBound_clamp_text (t : String) (m : Int) : clampBound (clamp_text t m) m := by
  by_cases h1 : m ≤ 0
  · rw [clamp_text_nonpos t m h1]
    exact clampBound_empty m
  · by_cases h2 : ((pyStrip t).length : Int) > m
    · rw [clamp_text_of_long t m h1 h2]
      have hmin : min m.toNat (pyStrip t).length = m.toNat :=
        Nat.min_eq_left (by omega)
      refine ⟨?_, fun _ => ?_⟩
      · rw [strLength_append, pyTake_length, hmin]
      · rw [strData_append]
        exact List.suffix_append _ _
    · rw [clamp_text_of_fit t m h1 h2]
      have hle : (pyStrip t).length ≤ m.toNat := by omega
      exact ⟨by omega, fun h => absurd h (by omega)⟩

/-! Claim C2. -/

/-- C2: as stated — "each format extractor returns a string whose
length never exceeds the supplied max_chars" — the claim is false: on
truncation `clamp_text` appends the 13-character marker after cutting
to `max_chars`, so the result is 13 characters longer than the budget.
Concretely `extract_text_from_plain_bytes` on the two bytes `ab` with
`max_chars = 1` returns the 14-character string `a\n\n[TRUNCATED]`. -/
theorem extractor_clamp_cex :
    extract_text_from_plain_bytes [97, 98] 1 = "a" ++ truncMarker ∧
      ¬ ((extract_text_from_plain_bytes [97, 98] 1).length ≤ 1) := by
  constructor
  · decide
  · decide

/-- C2 (amended): every format extractor returns a string of length at
most `max_chars + 13` (13 being the length of the `\n\n[TRUNCATED]`
marker); whenever the output is longer than `max_chars`, truncation
occurred and the output ends with the `[TRUNCATED]` marker. -/
theorem extractor_clamp_amended (raw : List Byte) (m : Int)
    (havePdf haveDocx haveBS havePd : Bool)
    (pages paras : Option (List String)) (soupText : Option String)
    (filename : String) (csvParse : Option DataFrame)
    (excelParse : Option (List (String × DataFrame))) (mrc : Nat) :
    clampBound (extract_text_from_plain_bytes raw m) m ∧
    clampBound (extract_text_from_pdf_bytes havePdf pages m) m ∧
    clampBound (extract_text_from_docx_bytes haveDocx paras m) m ∧
    clampBound (extract_text_from_html_bytes haveBS soupText raw m) m ∧
    clampBound (extract_text_from_rtf_bytes raw m) m ∧
    clampBound (extract_text_from_table_bytes havePd filename csvParse excelParse m mrc) m := by
  refine ⟨?_, ?_, ?_, ?_, ?_, ?_⟩
  · exact clampBound_clamp_text _ m
  · unfold extract_text_from_pdf_bytes
    split_ifs
    · exact clampBound_empty m
    · cases pages with
      | none => exact clampBound_empty m
      | some ps => exact clampBound_clamp_text _ m
  · unfold extract_text_from_docx_bytes
    split_ifs
    · exact clampBound_empty m
    · cases paras with
      | none => exact clampBound_empty m
      | some ps => exact clampBound_clamp_text _ m
  · unfold extract_text_from_html_bytes
    split_ifs
    · exact clampBound_clamp_text _ m
    · cases soupText with
      | none => exact clampBound_empty m
      | some t => exact clampBound_clamp_text _ m
  · exact clampBound_clamp_text _ m
  · unfold extract_text_from_table_bytes
    split_ifs
    · exact clampBound_empty m
    · cases csvParse with
      | none => exact clampBound_empty m
      | some df => exact clampBound_clamp_text _ m
    · cases excelParse with
      | none => exact clampBound_empty m
      | some sheets => exact clampBound_clamp_text _ m

/-- C2 witness: at the concrete truncating input the inner implication
of `clampBound` fires and yields the marker suffix. -/
theorem extractor_clamp_amended_witness :
    truncMarker.data <:+ (extract_text_from_plain_bytes [97, 98] 1).data := by
  have h := (extractor_clamp_amended [97, 98] 1 true true true true
    none none none "f.txt" none none 8).1
  exact h.2 (by decide)

/-! Claim C6. -/

/-- C6: every extractor is total by construction in this embedding
(all are Lean functions); a missing parser dependency, a failed
library parse (`none` oracle), a zero-byte payload, or an undecodable
payload (here the invalid UTF-8 bytes `0xFF 0xFE`) all map to the
empty result, and a failed image decode maps to no attachment. -/
theorem extractor_failure_to_empty (m : Int) (mrc : Nat)
    (pages paras : Option (List String)) (soup : Option String)
    (raw : List Byte) (im : Option Img)
    (fn : String) (csvParse : Option DataFrame)
    (excelParse : Option (List (String × DataFrame))) :
    extract_text_from_plain_bytes [] m = "" ∧
    extract_text_from_plain_bytes [255, 254] m = "" ∧
    extract_text_from_pdf_bytes false pages m = "" ∧
    extract_text_from_pdf_bytes true none m = "" ∧
    extract_text_from_pdf_bytes true (some []) m = "" ∧
    extract_text_from_docx_bytes false paras m = "" ∧
    extract_text_from_docx_bytes true none m = "" ∧
    extract_text_from_html_bytes false soup [] m = "" ∧
    extract_text_from_html_bytes true none raw m = "" ∧
    extract_text_from_rtf_bytes [] m = "" ∧
    extract_text_from_rtf_bytes [255] m = "" ∧
    extract_text_from_table_bytes false fn csvParse excelParse m mrc = "" ∧
    extract_text_from_table_bytes true "data.csv" none excelParse m mrc = "" ∧
    extract_text_from_table_bytes true "data.xlsx" csvParse none m mrc = "" ∧
    load_image_from_bytes false im = none ∧
    load_image_from_bytes true none = none := by
  refine ⟨?_, ?_, rfl, rfl, ?_, rfl, rfl, ?_, ?_, ?_, ?_, rfl, rfl, rfl, rfl, rfl⟩
  · exact clamp_text_empty m
  · exact clamp_text_empty m
  · exact clamp_text_empty m
  · exact clamp_text_empty m
  · rfl
  · exact clamp_text_empty m
  · exact clamp_text_empty m

/-! Claim C8. -/

/-- C8: the Prompt Builder is deterministic — two invocations with
identical evidence blocks, notes, constraints, language selection and
attachments report yield identical prompt documents (the embedding of
`build_prompt` reads no state besides its arguments). -/
theorem build_prompt_deterministic (b1 b2 : List String)
    (n1 n2 c1 c2 l1 l2 r1 r2 : String)
    (hb : b1 = b2) (hn : n1 = n2) (hc : c1 = c2) (hl : l1 = l2) (hr : r1 = r2) :
    build_prompt b1 n1 c1 l1 r1 = build_prompt b2 n2 c2 l2 r2 := by
  subst hb hn hc hl hr
  rfl

/-- C8 witness at concrete equal inputs. -/
theorem build_prompt_deterministic_witness :
    build_prompt ["block"] "n" "c" langKeyEn "report"
      = build_prompt ["block"] "n" "c" langKeyEn "report" :=
  build_prompt_deterministic ["block"] ["block"] "n" "n" "c" "c"
    langKeyEn langKeyEn "report" "report" rfl rfl rfl rfl rfl

/-! Claim C9. -/

/-- C9: an unrecognized output-language selector falls back to the
default directive, which is the rule set's own language (the same
directive selected for the Traditional-Chinese key), so the whole
prompt document coincides with the default one. -/
theorem lang_fallback (blocks : List String) (notes constraints report lang : String)
    (h1 : lang ≠ langKeyZh) (h2 : lang ≠ langKeyEn) (h3 : lang ≠ langKeyJa) :
    lang_rule_of lang = lang_rule_of langKeyZh ∧
      build_prompt blocks notes constraints lang report
        = build_prompt blocks notes constraints langKeyZh report := by
  have hlr : lang_rule_of lang = lang_rule_of langKeyZh := by
    unfold lang_rule_of
    rw [if_neg h1, if_neg h2, if_neg h3, if_pos rfl]
    rfl
  refine ⟨hlr, ?_⟩
  unfold build_prompt
  rw [hlr]

/-- C9 witness at the concrete unrecognized selector `Klingon`. -/
theorem lang_fallback_witness :
    build_prompt [] "" "" "Klingon" "r" = build_prompt [] "" "" langKeyZh "r" :=
  (lang_fallback [] "" "" "r" "Klingon" (by decide) (by decide) (by decide)).2

/-! Claim C7. -/

/-- C7: a one-sheet, one-column table of five distinct non-blank
string values digests to the sheet header, a header line naming the
column, then the first `max_rows_per_col` stripped values as bullets
in source row order, each bullet value capped at 160 characters. -/
theorem table_digest (c sheet : String) (vs : List String) (n : Nat)
    (h5 : vs.length = 5) (hdist : vs.Nodup)
    (hne : ∀ v ∈ vs, pyStrip v ≠ "") (hn : 0 < n) :
    summarize_dataframe_voice ⟨[⟨c, vs.map some⟩]⟩ sheet n 160 =
      pyJoin "\n" ([tableSheetHeader0 ++ sheet ++ tableSheetHeader1,
          colHeaderLine0 ++ c ++ colHeaderLine1]
        ++ ((vs.map pyStrip).take n).map
            (fun s => bulletLine0 ++ pyTake s 160 ++ bulletLine1)
        ++ [tableSheetFooter0 ++ sheet ++ tableSheetFooter1]) ∧
    ∀ s ∈ (vs.map pyStrip).take n, (pyTake s 160).length ≤ 160 := by
  constructor
  · rcases vs with _ | ⟨v1, _ | ⟨v2, _ | ⟨v3, _ | ⟨v4, _ | ⟨v5, _ | ⟨v6, t⟩⟩⟩⟩⟩⟩
    · simp at h5
    · simp at h5
    · simp at h5
    · simp at h5
    · simp at h5
    · have e1 : (pyStrip v1 != "") = true := by simpa using hne v1 (by simp)
      have e2 : (pyStrip v2 != "") = true := by simpa using hne v2 (by simp)
      have e3 : (pyStrip v3 != "") = true := by simpa using hne v3 (by simp)
      have e4 : (pyStrip v4 != "") = true := by simpa using hne v4 (by simp)
      have e5 : (pyStrip v5 != "") = true := by simpa using hne v5 (by simp)
      cases n with
      | zero => omega
      | succ k =>
        unfold summarize_dataframe_voice colDigest
        rw [if_neg (by simp [DataFrame.isEmpty])]
        simp [e1, e2, e3, e4, e5]
    · simp at h5
  · intro s hs
    rw [pyTake_length]
    exact Nat.min_le_left _ _

/-- C7 witness at five concrete values. -/
theorem table_digest_witness :
    summarize_dataframe_voice ⟨[⟨"col", ["v1", "v2", "v3", "v4", "v5"].map some⟩]⟩ "CSV" 8 160 =
      pyJoin "\n" ([tableSheetHeader0 ++ "CSV" ++ tableSheetHeader1,
          colHeaderLine0 ++ "col" ++ colHeaderLine1]
        ++ ((["v1", "v2", "v3", "v4", "v5"].map pyStrip).take 8).map
            (fun s => bulletLine0 ++ pyTake s 160 ++ bulletLine1)
        ++ [tableSheetFooter0 ++ "CSV" ++ tableSheetFooter1]) :=
  (table_digest "col" "CSV" ["v1", "v2", "v3", "v4", "v5"] 8 (by decide) (by decide)
    (by decide) (by decide)).1

/-! Helper lemmas for the assembly loop (claim C1). -/

theorem sumLens_append (l : List String) (x : String) :
    sumLens (l ++ [x]) = sumLens l + x.length := by
  simp [sumLens]

theorem str_ne_empty (s : String) (h : 0 < s.length) : s ≠ "" := by
  intro he
  rw [he] at h
  exact absurd h (by decide)

theorem truncMarker_len : truncMarker.length = 13 := rfl

theorem totalTruncMarker_len : totalTruncMarker.length = 28 := rfl

theorem processPasted_empty (mt : Nat) (st : AsmState) :
    processPasted mt st "" = st := by
  simp [processPasted, pyStrip_empty]

theorem budget_step_unreadable (mt : Nat) (st : AsmState) (fn mime ex : String)
    (h0 : pyStrip ex = "") :
    budget_step mt st fn mime ex
      = { st with report_lines := st.report_lines ++ [unreadableLine0 ++ fn ++ unreadableLine1] } := by
  simp only [budget_step]
  rw [if_pos h0]

theorem budget_step_skip (mt : Nat) (st : AsmState) (fn mime ex : String)
    (h0 : pyStrip ex ≠ "") (h1 : mt ≤ st.total_chars) :
    budget_step mt st fn mime ex
      = { st with report_lines := st.report_lines ++ [skipLine0 ++ fn ++ skipLine1] } := by
  simp only [budget_step]
  rw [if_neg h0, if_pos (show (mt : Int) - (st.total_chars : Int) ≤ 0 by omega)]

theorem budget_step_trunc (mt : Nat) (st : AsmState) (fn mime ex : String)
    (h1 : st.total_chars < mt)
    (h2 : ((mt - st.total_chars : Nat) : Int) < ((pyStrip ex).length : Int)) :
    budget_step mt st fn mime ex
      = { st with
          total_chars := st.total_chars + (totalTruncText mt st.total_chars ex).length
          sample_blocks := st.sample_blocks ++ [fileBlock0 ++ fn ++ fileBlock1 ++ mime
            ++ fileBlock2 ++ totalTruncText mt st.total_chars ex ++ fileBlock3]
          evidence_texts := st.evidence_texts ++ [totalTruncText mt st.total_chars ex]
          report_lines := st.report_lines ++ [okLine0 ++ fn ++ okLine1
            ++ pyThousands (totalTruncText mt st.total_chars ex).length ++ okLine2] } := by
  have h0 : pyStrip ex ≠ "" := str_ne_empty _ (by omega)
  simp only [budget_step]
  rw [if_neg h0, if_neg (show ¬ ((mt : Int) - (st.total_chars : Int) ≤ 0) by omega),
    if_pos (show ((pyStrip ex).length : Int) > (mt : Int) - (st.total_chars : Int) by omega)]
  have htn : ((mt : Int) - (st.total_chars : Int)).toNat = mt - st.total_chars := by omega
  rw [htn]
  rfl

theorem budget_step_fit (mt : Nat) (st : AsmState) (fn mime ex : String)
    (h0 : pyStrip ex ≠ "")
    (h1 : ¬ ((mt : Int) - (st.total_chars : Int) ≤ 0))
    (h2 : ¬ (((pyStrip ex).length : Int) > (mt : Int) - (st.total_chars : Int))) :
    budget_step mt st fn mime ex
      = { st with
          total_chars := st.total_chars + (pyStrip ex).length
          sample_blocks := st.sample_blocks ++ [fileBlock0 ++ fn ++ fileBlock1 ++ mime
            ++ fileBlock2 ++ pyStrip ex ++ fileBlock3]
          evidence_texts := st.evidence_texts ++ [pyStrip ex]
          report_lines := st.report_lines ++ [okLine0 ++ fn ++ okLine1
            ++ pyThousands (pyStrip ex).length ++ okLine2] } := by
  simp only [budget_step]
  rw [if_neg h0, if_neg h1, if_neg h2]

theorem totalTruncText_length (mt total : Nat) (s : String)
    (h : mt - total ≤ (pyStrip s).length) :
    (totalTruncText mt total s).length = (mt - total) + totalTruncMarker.length := by
  unfold totalTruncText
  rw [strLength_append, pyTake_length, Nat.min_eq_left h]

theorem pastedTruncText_length (mt total : Nat) (s : String)
    (h : mt - total ≤ (pyStrip s).length) :
    (pastedTruncText mt total s).length = (mt - total) + truncMarker.length := by
  unfold pastedTruncText
  rw [strLength_append, pyTake_length, Nat.min_eq_left h]

theorem processPasted_trunc (mt : Nat) (st : AsmState) (pasted : String)
    (h1 : st.total_chars < mt)
    (h2 : ((mt - st.total_chars : Nat) : Int) < ((pyStrip pasted).length : Int)) :
    processPasted mt st pasted
      = { st with
          sample_blocks := st.sample_blocks ++
            [pastedBlock0 ++ pastedTruncText mt st.total_chars pasted ++ pastedBlock1]
          evidence_texts := st.evidence_texts ++ [pastedTruncText mt st.total_chars pasted]
          report_lines := st.report_lines ++ [pastedOkLine0
            ++ pyThousands (pastedTruncText mt st.total_chars pasted).length ++ pastedOkLine1]
          total_chars := st.total_chars + (pastedTruncText mt st.total_chars pasted).length } := by
  have h0 : pyStrip pasted ≠ "" := str_ne_empty _ (by omega)
  have hlong : ((pyStrip (pyStrip pasted)).length : Int) > (mt : Int) - (st.total_chars : Int) := by
    rw [pyStrip_idem]
    omega
  have hclamp : clamp_text (pyStrip pasted) ((mt : Int) - (st.total_chars : Int))
      = pastedTruncText mt st.total_chars pasted := by
    rw [clamp_text_of_long _ _ (by omega) hlong, pyStrip_idem]
    have htn : ((mt : Int) - (st.total_chars : Int)).toNat = mt - st.total_chars := by omega
    rw [htn]
    rfl
  have hne2 : pastedTruncText mt st.total_chars pasted ≠ "" := by
    apply str_ne_empty
    rw [pastedTruncText_length mt st.total_chars pasted (by omega), truncMarker_len]
    omega
  simp only [processPasted]
  rw [if_neg h0, hclamp, if_pos hne2]

theorem processPasted_fit (mt : Nat) (st : AsmState) (pasted : String)
    (h0 : pyStrip pasted ≠ "")
    (h1 : st.total_chars < mt)
    (h2 : ¬ (((mt - st.total_chars : Nat) : Int) < ((pyStrip pasted).length : Int))) :
    processPasted mt st pasted
      = { st with
          sample_blocks := st.sample_blocks ++ [pastedBlock0 ++ pyStrip pasted ++ pastedBlock1]
          evidence_texts := st.evidence_texts ++ [pyStrip pasted]
          report_lines := st.report_lines ++ [pastedOkLine0
            ++ pyThousands (pyStrip pasted).length ++ pastedOkLine1]
          total_chars := st.total_chars + (pyStrip pasted).length } := by
  have hfits : clamp_text (pyStrip pasted) ((mt : Int) - (st.total_chars : Int))
      = pyStrip pasted := by
    rw [clamp_text_of_fit _ _ (by omega) (by rw [pyStrip_idem]; omega), pyStrip_idem]
  simp only [processPasted]
  rw [if_neg h0, hfits, if_pos h0]

theorem budget_step_inv (mt : Nat) (st : AsmState) (fn mime ex : String)
    (h : AsmInv mt st) : AsmInv mt (budget_step mt st fn mime ex) := by
  obtain ⟨hs, hb⟩ := h
  by_cases h0 : pyStrip ex = ""
  · rw [budget_step_unreadable mt st fn mime ex h0]
    exact ⟨hs, hb⟩
  · by_cases h1 : mt ≤ st.total_chars
    · rw [budget_step_skip mt st fn mime ex h0 h1]
      exact ⟨hs, hb⟩
    · have h1' : st.total_chars < mt := by omega
      by_cases h2 : ((mt - st.total_chars : Nat) : Int) < ((pyStrip ex).length : Int)
      · rw [budget_step_trunc mt st fn mime ex h1' h2]
        refine ⟨?_, ?_⟩
        · show st.total_chars + _ = sumLens (st.evidence_texts ++ [_])
          rw [sumLens_append, hs]
        · show st.total_chars + (totalTruncText mt st.total_chars ex).length
            ≤ mt + totalTruncMarker.length
          rw [totalTruncText_length mt st.total_chars ex (by omega)]
          omega
      · rw [budget_step_fit mt st fn mime ex h0 (by omega) (by omega)]
        refine ⟨?_, ?_⟩
        · show st.total_chars + _ = sumLens (st.evidence_texts ++ [_])
          rw [sumLens_append, hs]
        · show st.total_chars + (pyStrip ex).length ≤ mt + totalTruncMarker.length
          omega

theorem processUpload_inv (libs : Libs) (mpf : Int) (mrc mt : Nat)
    (st : AsmState) (u : Upload) (h : AsmInv mt st) :
    AsmInv mt (processUpload libs mpf mrc mt st u) := by
  obtain ⟨hs, hb⟩ := h
  simp only [processUpload]
  by_cases hc : ["png", "jpg", "jpeg", "webp"].contains (file_ext u.filename) = true
  · rw [if_pos hc]
    rcases hl : load_image_from_bytes libs.pil u.imgDecode with _ | img
    · exact ⟨hs, hb⟩
    · exact ⟨hs, hb⟩
  · rw [if_neg hc]
    exact budget_step_inv mt st u.filename u.mime _ ⟨hs, hb⟩

theorem processPasted_inv (mt : Nat) (st : AsmState) (pasted : String)
    (h : AsmInv mt st) : AsmInv mt (processPasted mt st pasted) := by
  obtain ⟨hs, hb⟩ := h
  by_cases h0 : pyStrip pasted = ""
  · simp only [processPasted]
    rw [if_pos h0]
    exact ⟨hs, hb⟩
  · by_cases h1 : mt ≤ st.total_chars
    · have hcl : clamp_text (pyStrip pasted) ((mt : Int) - (st.total_chars : Int)) = "" :=
        clamp_text_nonpos _ _ (by omega)
      simp only [processPasted]
      rw [if_neg h0, hcl, if_neg (by simp)]
      exact ⟨hs, hb⟩
    · have h1' : st.total_chars < mt := by omega
      by_cases h2 : ((mt - st.total_chars : Nat) : Int) < ((pyStrip pasted).length : Int)
      · rw [processPasted_trunc mt st pasted h1' h2]
        refine ⟨?_, ?_⟩
        · show st.total_chars + _ = sumLens (st.evidence_texts ++ [_])
          rw [sumLens_append, hs]
        · show st.total_chars + (pastedTruncText mt st.total_chars pasted).length
            ≤ mt + totalTruncMarker.length
          rw [pastedTruncText_length mt st.total_chars pasted (by omega),
            truncMarker_len, totalTruncMarker_len]
          omega
      · rw [processPasted_fit mt st pasted h0 h1' h2]
        refine ⟨?_, ?_⟩
        · show st.total_chars + _ = sumLens (st.evidence_texts ++ [_])
          rw [sumLens_append, hs]
        · show st.total_chars + (pyStrip pasted).length ≤ mt + totalTruncMarker.length
          omega

theorem assemble_inv (libs : Libs) (mpf : Int) (mt mrc : Nat)
    (uploads : List Upload) (pasted : String) :
    AsmInv mt (assemble libs mpf mt mrc uploads pasted) := by
  have h0 : AsmInv mt initAsm := ⟨rfl, Nat.zero_le _⟩
  have hfold : ∀ (us : List Upload) (st : AsmState), AsmInv mt st →
      AsmInv mt (us.foldl (processUpload libs mpf mrc mt) st) := by
    intro us
    induction us with
    | nil => intro st h; exact h
    | cons u us ih =>
      intro st h
      rw [List.foldl_cons]
      exact ih _ (processUpload_inv libs mpf mrc mt st u h)
  exact processPasted_inv mt _ pasted (hfold uploads initAsm h0)

theorem not_truncMarker_suffix (p : List Char) :
    ¬ truncMarker.data <:+ (p ++ totalTruncMarker.data) := by
  intro h
  obtain ⟨q, hq⟩ := h
  have hlen := congrArg List.length hq
  rw [List.length_append, List.length_append] at hlen
  have e1 : (q ++ truncMarker.data).drop (p.length + 15) = truncMarker.data := by
    rw [show p.length + 15 = q.length by
      have : truncMarker.data.length = 13 := rfl
      have : totalTruncMarker.data.length = 28 := rfl
      omega]
    exact List.drop_left _ _
  have e2 : (p ++ totalTruncMarker.data).drop (p.length + 15)
      = totalTruncMarker.data.drop 15 := by
    have h15 : ((p ++ totalTruncMarker.data).drop p.length).drop 15
        = (p ++ totalTruncMarker.data).drop (p.length + 15) := by
      rw [List.drop_drop, Nat.add_comm]
    rw [← h15, List.drop_left]
  have : truncMarker.data = totalTruncMarker.data.drop 15 := by
    rw [← e1, hq, e2]
  exact absurd this (by decide)

/-! Claim C1. -/

/-- C1 (amended): over any assembly run the sum of the emitted
evidence-text lengths equals `total_chars` and never exceeds the total
cap plus 28 (the length of the `\n\n[TRUNCATED_BY_TOTAL_LIMIT]`
marker, appended once by the crossing upload); an upload whose
extracted text crosses the remaining budget is cut to the remaining
budget and suffixed with the total-limit marker (never the per-file
marker), bringing the total to exactly cap + 28; any upload processed
at or past the cap with non-empty extraction is recorded as skipped
and contributes no evidence block; pasted text that crosses the
remaining budget is instead clamped by `clamp_text`, so it is cut to
the remaining budget and suffixed with the per-file `[TRUNCATED]`
marker. -/
theorem evidence_budget_amended (libs : Libs) (mpf : Int) (mt mrc : Nat)
    (uploads : List Upload) (pasted : String)
    (st : AsmState) (fn mime ex : String) :
    ((assemble libs mpf mt mrc uploads pasted).total_chars
        = sumLens (assemble libs mpf mt mrc uploads pasted).evidence_texts
      ∧ (assemble libs mpf mt mrc uploads pasted).total_chars
        ≤ mt + totalTruncMarker.length)
    ∧ (pyStrip ex ≠ "" → mt ≤ st.total_chars →
        budget_step mt st fn mime ex
          = { st with report_lines := st.report_lines ++ [skipLine0 ++ fn ++ skipLine1] })
    ∧ (st.total_chars < mt →
        ((mt - st.total_chars : Nat) : Int) < ((pyStrip ex).length : Int) →
        budget_step mt st fn mime ex
            = { st with
                total_chars := st.total_chars + (totalTruncText mt st.total_chars ex).length
                sample_blocks := st.sample_blocks ++ [fileBlock0 ++ fn ++ fileBlock1 ++ mime
                  ++ fileBlock2 ++ totalTruncText mt st.total_chars ex ++ fileBlock3]
                evidence_texts := st.evidence_texts ++ [totalTruncText mt st.total_chars ex]
                report_lines := st.report_lines ++ [okLine0 ++ fn ++ okLine1
                  ++ pyThousands (totalTruncText mt st.total_chars ex).length ++ okLine2] }
          ∧ st.total_chars + (totalTruncText mt st.total_chars ex).length
              = mt + totalTruncMarker.length
          ∧ totalTruncMarker.data <:+ (totalTruncText mt st.total_chars ex).data
          ∧ ¬ truncMarker.data <:+ (totalTruncText mt st.total_chars ex).data)
    ∧ (st.total_chars < mt →
        ((mt - st.total_chars : Nat) : Int) < ((pyStrip pasted).length : Int) →
        processPasted mt st pasted
            = { st with
                sample_blocks := st.sample_blocks ++
                  [pastedBlock0 ++ pastedTruncText mt st.total_chars pasted ++ pastedBlock1]
                evidence_texts := st.evidence_texts ++
                  [pastedTruncText mt st.total_chars pasted]
                report_lines := st.report_lines ++ [pastedOkLine0
                  ++ pyThousands (pastedTruncText mt st.total_chars pasted).length
                  ++ pastedOkLine1]
                total_chars := st.total_chars
                  + (pastedTruncText mt st.total_chars pasted).length }
          ∧ truncMarker.data <:+ (pastedTruncText mt st.total_chars pasted).data) := by
  refine ⟨⟨(assemble_inv libs mpf mt mrc uploads pasted).1,
      (assemble_inv libs mpf mt mrc uploads pasted).2⟩, ?_, ?_, ?_⟩
  · intro h0 h1
    exact budget_step_skip mt st fn mime ex h0 h1
  · intro h1 h2
    refine ⟨budget_step_trunc mt st fn mime ex h1 h2, ?_, ?_, ?_⟩
    · rw [totalTruncText_length mt st.total_chars ex (by omega)]
      omega
    · show totalTruncMarker.data <:+ (pyTake (pyStrip ex) (mt - st.total_chars)
        ++ totalTruncMarker).data
      rw [strData_append]
      exact List.suffix_append _ _
    · show ¬ truncMarker.data <:+ (pyTake (pyStrip ex) (mt - st.total_chars)
        ++ totalTruncMarker).data
      rw [strData_append]
      exact not_truncMarker_suffix _
  · intro h1 h2
    refine ⟨processPasted_trunc mt st pasted h1 h2, ?_⟩
    show truncMarker.data <:+ (pyTake (pyStrip pasted) (mt - st.total_chars)
      ++ truncMarker).data
    rw [strData_append]
    exact List.suffix_append _ _

/-- C1 witness: the skip, upload-truncation and pasted-truncation
branches of the amended theorem at concrete states. -/
theorem evidence_budget_amended_witness :
    budget_step 5 ⟨[], [], [], [], 7⟩ "f.txt" "text/plain" "abc"
        = { (⟨[], [], [], [], 7⟩ : AsmState) with
            report_lines := [] ++ [skipLine0 ++ "f.txt" ++ skipLine1] }
    ∧ totalTruncMarker.data <:+ (totalTruncText 5 3 "abcdef").data
    ∧ truncMarker.data <:+ (pastedTruncText 5 3 "xyzxyz").data := by
  refine ⟨?_, ?_, ?_⟩
  · exact (evidence_budget_amended allLibs 60000 5 8 [] "" ⟨[], [], [], [], 7⟩
      "f.txt" "text/plain" "abc").2.1 (by decide) (by decide)
  · exact ((evidence_budget_amended allLibs 60000 5 8 [] "" ⟨[], [], [], [], 3⟩
      "f.txt" "text/plain" "abcdef").2.2.1 (by decide) (by decide)).2.2.1
  · exact ((evidence_budget_amended allLibs 60000 5 8 [] "xyzxyz" ⟨[], [], [], [], 3⟩
      "f.txt" "text/plain" "abcdef").2.2.2 (by decide) (by decide)).2

/-! Symbolic evaluation lemmas for the C1 counterexample (the sliders
bound the total cap below by 20000, so the counterexample needs
20000-character inputs, evaluated by lemmas rather than by kernel
reduction). -/

theorem decodeLoop_ascii (b : Byte) (hb : b.val < 128) :
    ∀ (n fuel : Nat), n ≤ fuel →
      decodeUtf8Loop fuel (List.replicate n b) = List.replicate n (Char.ofNat b.val) := by
  intro n
  induction n with
  | zero =>
    intro fuel _
    cases fuel <;> rfl
  | succ k ih =>
    intro fuel hf
    cases fuel with
    | zero => omega
    | succ f =>
      rw [List.replicate_succ, List.replicate_succ]
      show (if b.val < 0x80 then Char.ofNat b.val :: decodeUtf8Loop f (List.replicate k b)
        else _) = _
      rw [if_pos hb, ih f (by omega)]

theorem decode_replicate (b : Byte) (hb : b.val < 128) (n : Nat) :
    decodeUtf8Ignore (List.replicate n b) = List.replicate n (Char.ofNat b.val) := by
  unfold decodeUtf8Ignore
  rw [List.length_replicate]
  exact decodeLoop_ascii b hb n n (Nat.le_refl n)

theorem dropWhile_replicate_not (p : Char → Bool) (c : Char) (hc : p c = false) (n : Nat) :
    List.dropWhile p (List.replicate n c) = List.replicate n c := by
  cases n with
  | zero => rfl
  | succ k =>
    rw [List.replicate_succ, List.dropWhile_cons, if_neg (by simp [hc])]

theorem pyStrip_replicate (c : Char) (hc : c.isWhitespace = false) (n : Nat) :
    pyStrip ⟨List.replicate n c⟩ = ⟨List.replicate n c⟩ := by
  show (⟨List.rdropWhile Char.isWhitespace
    (List.dropWhile Char.isWhitespace (List.replicate n c))⟩ : String) = _
  rw [dropWhile_replicate_not Char.isWhitespace c hc n]
  unfold List.rdropWhile
  rw [List.reverse_replicate, dropWhile_replicate_not Char.isWhitespace c hc n,
    List.reverse_replicate]

theorem bigA_length (n : Nat) : (bigA n).length = n := by
  show (List.replicate n 'a').length = n
  simp

theorem pyStrip_bigA (n : Nat) : pyStrip (bigA n) = bigA n :=
  pyStrip_replicate 'a' (by decide) n

theorem pyStrip_bigA_length (n : Nat) : (pyStrip (bigA n)).length = n := by
  rw [pyStrip_bigA]
  exact bigA_length n

theorem dispatch_bigUpload (n : Nat) (hn : (n : Int) ≤ 60000) :
    dispatch_extract allLibs 60000 8 (bigUpload n) = bigA n := by
  show clamp_text (⟨decodeUtf8Ignore (List.replicate n (97 : Byte))⟩ : String) 60000 = bigA n
  rw [decode_replicate 97 (by decide) n]
  show clamp_text (bigA n) 60000 = bigA n
  rw [clamp_text_of_fit _ _ (by omega)
    (by rw [pyStrip_bigA_length]; omega), pyStrip_bigA]

theorem processUpload_text (libs : Libs) (mpf : Int) (mrc mt : Nat)
    (st : AsmState) (u : Upload)
    (h : (["png", "jpg", "jpeg", "webp"].contains (file_ext u.filename)) = false) :
    processUpload libs mpf mrc mt st u
      = budget_step mt st u.filename u.mime (dispatch_extract libs mpf mrc u) := by
  simp only [processUpload]
  rw [if_neg (by simp only [h]; exact Bool.false_ne_true)]

theorem pyStrip_bigB (n : Nat) : pyStrip (bigB n) = bigB n :=
  pyStrip_replicate 'b' (by decide) n

theorem bigB_length (n : Nat) : (bigB n).length = n := by
  show (List.replicate n 'b').length = n
  simp

theorem assemble_single_big (n : Nat) (hn : (n : Int) ≤ 60000) (pasted : String) :
    assemble allLibs 60000 20000 8 [bigUpload n] pasted
      = processPasted 20000 (budget_step 20000 initAsm "a.txt" "text/plain" (bigA n)) pasted := by
  unfold assemble
  rw [List.foldl_cons, List.foldl_nil,
    processUpload_text allLibs 60000 8 20000 initAsm (bigUpload n) rfl,
    dispatch_bigUpload n hn]
  rfl

/-- C1: as stated the claim is false on two counts, both exhibited at
the slider minimum cap of 20000.  First, a single 20001-character text
upload yields an emitted evidence text of length 20028 — the sum of
evidence lengths exceeds the configured cap (truncation appends the
28-character total-limit marker after cutting to the cap).  Second,
pasted text that crosses the remaining budget (20 characters against
a remaining budget of 10) is emitted ending in the per-file
`[TRUNCATED]` marker, not the `[TRUNCATED_BY_TOTAL_LIMIT]` marker the
claim requires for the crossing input. -/
theorem evidence_budget_cex :
    ¬ (sumLens (assemble allLibs 60000 20000 8 [bigUpload 20001] "").evidence_texts
        ≤ 20000)
    ∧ (assemble allLibs 60000 20000 8 [bigUpload 19990] (bigB 20)).evidence_texts
        = [bigA 19990, pastedCrossTxt]
    ∧ truncMarker.data <:+ pastedCrossTxt.data
    ∧ ¬ totalTruncMarker.data <:+ pastedCrossTxt.data := by
  have hiz : initAsm.total_chars = 0 := rfl
  refine ⟨?_, ?_, ?_, ?_⟩
  · rw [assemble_single_big 20001 (by omega) "", processPasted_empty,
      budget_step_trunc 20000 initAsm "a.txt" "text/plain" (bigA 20001)
        (by omega)
        (by rw [pyStrip_bigA_length, hiz]; omega)]
    have hlen : (totalTruncText 20000 initAsm.total_chars (bigA 20001)).length = 20028 := by
      rw [hiz, totalTruncText_length 20000 0 (bigA 20001)
        (by rw [pyStrip_bigA_length]; omega), totalTruncMarker_len]
    show ¬ (sumLens (initAsm.evidence_texts ++ [totalTruncText 20000 initAsm.total_chars
      (bigA 20001)]) ≤ 20000)
    rw [sumLens_append, hlen]
    have hz : sumLens initAsm.evidence_texts = 0 := rfl
    omega
  · rw [assemble_single_big 19990 (by omega) (bigB 20),
      budget_step_fit 20000 initAsm "a.txt" "text/plain" (bigA 19990)
        (str_ne_empty _ (by rw [pyStrip_bigA_length]; omega))
        (by omega)
        (by rw [pyStrip_bigA_length]; omega)]
    have hst : ({ initAsm with
          total_chars := initAsm.total_chars + (pyStrip (bigA 19990)).length
          sample_blocks := initAsm.sample_blocks ++ [fileBlock0 ++ "a.txt" ++ fileBlock1
            ++ "text/plain" ++ fileBlock2 ++ pyStrip (bigA 19990) ++ fileBlock3]
          evidence_texts := initAsm.evidence_texts ++ [pyStrip (bigA 19990)]
          report_lines := initAsm.report_lines ++ [okLine0 ++ "a.txt" ++ okLine1
            ++ pyThousands (pyStrip (bigA 19990)).length ++ okLine2] } : AsmState)
        = ⟨[fileBlock0 ++ "a.txt" ++ fileBlock1 ++ "text/plain" ++ fileBlock2
              ++ bigA 19990 ++ fileBlock3],
            [bigA 19990], [],
            [okLine0 ++ "a.txt" ++ okLine1 ++ pyThousands (bigA 19990).length ++ okLine2],
            19990⟩ := by
      rw [pyStrip_bigA, bigA_length]
      simp [initAsm]
    rw [hst]
    rw [processPasted_trunc 20000 _ (bigB 20)
      (by show (19990 : Nat) < 20000; omega)
      (by
        show ((20000 - 19990 : Nat) : Int) < ((pyStrip (bigB 20)).length : Int)
        rw [pyStrip_bigB, bigB_length]
        omega)]
    show [bigA 19990] ++ [pastedTruncText 20000 19990 (bigB 20)]
      = [bigA 19990, pastedCrossTxt]
    have hpt : pastedTruncText 20000 19990 (bigB 20) = pastedCrossTxt := by
      unfold pastedTruncText pastedCrossTxt
      rw [pyStrip_bigB]
      have hsub : (20000 - 19990 : Nat) = 10 := by omega
      rw [hsub]
      have htk : pyTake (bigB 20) 10 = (⟨List.replicate 10 'b'⟩ : String) := by
        show (⟨(List.replicate 20 'b').take 10⟩ : String) = _
        rw [List.take_replicate, show (10 ⊓ 20 : Nat) = 10 by omega]
      rw [htk]
    rw [hpt]
    rfl
  · show truncMarker.data <:+ ((⟨List.replicate 10 'b'⟩ : String) ++ truncMarker).data
    rw [strData_append]
    exact List.suffix_append _ _
  · intro h
    have hle := h.length_le
    have h1 : totalTruncMarker.data.length = 28 := rfl
    have h2 : pastedCrossTxt.data.length = 23 := by decide
    omega

/-! Claim C4. -/

/-- C4: when the outbound call fails with any exception, the failure
is caught at the call site and surfaced as a single user-visible
message carrying the underlying cause; the gateway is invoked exactly
once (no retry), nothing is displayed or exported, and the Session Log
is unchanged from before the run. -/
theorem gateway_failure_no_record (libs : Libs) (inp : ScriptInput)
    (history : List RunRecord) (e : String)
    (hrun : inp.runClicked = true) (hkey : pyStrip inp.api_key ≠ "")
    (hgenai : libs.genai = true) (hgw : inp.gateway = Except.error e) :
    (scriptRun libs inp history).errors = [geminiFailMsgF0 ++ e ++ geminiFailMsgF1]
    ∧ (scriptRun libs inp history).gatewayCalls = 1
    ∧ (scriptRun libs inp history).history = history
    ∧ (scriptRun libs inp history).displayed = none
    ∧ (scriptRun libs inp history).exports = [] := by
  simp [scriptRun, hrun, hkey, hgenai, hgw]

/-- C4 witness at a concrete failing gateway. -/
theorem gateway_failure_no_record_witness :
    (scriptRun allLibs inpErr []).errors
        = [geminiFailMsgF0 ++ "boom" ++ geminiFailMsgF1]
    ∧ (scriptRun allLibs inpErr []).history = [] := by
  have h := gateway_failure_no_record allLibs inpErr [] "boom" rfl (by decide) rfl rfl
  exact ⟨h.1, h.2.2.1⟩

/-! Claim C5. -/

/-- C5 (amended): a run with a blank credential performs zero gateway
invocations, shows the single missing-key message, displays and
exports nothing, and leaves the Session Log unchanged; evidence
assembly, however, is not skipped — it runs unconditionally before
the credential check (only the outbound call is averted). -/
theorem missing_credential_amended (libs : Libs) (inp : ScriptInput)
    (history : List RunRecord)
    (hrun : inp.runClicked = true) (hkey : pyStrip inp.api_key = "") :
    (scriptRun libs inp history).gatewayCalls = 0
    ∧ (scriptRun libs inp history).request = none
    ∧ (scriptRun libs inp history).errors = [missingKeyMsg0]
    ∧ (scriptRun libs inp history).displayed = none
    ∧ (scriptRun libs inp history).exports = []
    ∧ (scriptRun libs inp history).history = history
    ∧ (scriptRun libs inp history).asm = assembleOf libs inp := by
  simp [scriptRun, hrun, hkey]

/-- C5 witness at the concrete blank-credential input. -/
theorem missing_credential_amended_witness :
    (scriptRun allLibs inpNoKey []).gatewayCalls = 0
    ∧ (scriptRun allLibs inpNoKey []).errors = [missingKeyMsg0]
    ∧ (scriptRun allLibs inpNoKey []).history = [] := by
  have h := missing_credential_amended allLibs inpNoKey [] rfl (by decide)
  exact ⟨h.1, h.2.2.1, h.2.2.2.2.2.1⟩

/-- C5: as stated the claim is false in one respect: the run is NOT
aborted "before evidence assembly" — assembly happens at module level
before the credential check on every rerun.  At a concrete
blank-credential run over a readable text upload, assembly has
produced evidence blocks even though zero gateway calls were made. -/
theorem missing_credential_cex :
    (scriptRun allLibs inpNoKey []).asm.sample_blocks ≠ []
    ∧ (scriptRun allLibs inpNoKey []).gatewayCalls = 0
    ∧ (scriptRun allLibs inpNoKey []).errors = [missingKeyMsg0]
    ∧ (scriptRun allLibs inpNoKey []).history = ([] : List RunRecord) := by
  refine ⟨by decide, by decide, by decide, by decide⟩

/-! Claim C3. -/

/-- C3 (amended): a successful run with a credential, two text
evidence blocks and one decodable image sends a request of TWO parts —
the prompt text first, then the image (the evidence blocks travel
inside the prompt text, so one image adds one part, not two) — and,
with the save-history toggle at its default (enabled), appends exactly
one RunRecord and offers exactly two export artifacts. -/
theorem run_success_amended (libs : Libs) (inp : ScriptInput)
    (history : List RunRecord) (out : String) (img : Img)
    (hrun : inp.runClicked = true) (hkey : pyStrip inp.api_key ≠ "")
    (hgenai : libs.genai = true) (hgw : inp.gateway = Except.ok out) (hout : out ≠ "")
    (hsave : inp.save_history = true)
    (himg : (assembleOf libs inp).images = [img])
    (_hblocks : (assembleOf libs inp).sample_blocks.length = 2) :
    (scriptRun libs inp history).request
        = some [GPart.text (scriptRun libs inp history).prompt_text, GPart.image img]
    ∧ (scriptRun libs inp history).history
        = scriptRecord inp (assembleOf libs inp) out :: history
    ∧ (scriptRun libs inp history).exports.length = 2
    ∧ (scriptRun libs inp history).displayed = some out
    ∧ (scriptRun libs inp history).gatewayCalls = 1 := by
  simp [scriptRun, hrun, hkey, hgenai, hgw, hout, hsave, himg,
    gemini_request_parts, scriptExports]

/-- C3 witness at the concrete successful input (two text uploads,
one decoded image, save-history on). -/
theorem run_success_amended_witness :
    (scriptRun allLibs baseInput []).history
        = [scriptRecord baseInput (assembleOf allLibs baseInput) "OUT"]
    ∧ (scriptRun allLibs baseInput []).exports.length = 2 := by
  have h := run_success_amended allLibs baseInput [] "OUT" ⟨7⟩ rfl (by decide) rfl rfl
    (by decide) rfl (by decide) (by decide)
  exact ⟨h.2.1, h.2.2.1⟩

/-- C3: as stated the claim is false: the request of the successful
two-blocks-one-image run consists of two parts (prompt, image), not
three.  All context facts of the claimed scenario hold at this input:
two text evidence blocks, one attached image, displayed output. -/
theorem run_success_cex :
    (scriptRun allLibs baseInput []).asm.sample_blocks.length = 2
    ∧ (scriptRun allLibs baseInput []).asm.images.length = 1
    ∧ (scriptRun allLibs baseInput []).displayed = some "OUT"
    ∧ ((scriptRun allLibs baseInput []).request.getD []).length = 2
    ∧ ¬ (((scriptRun allLibs baseInput []).request.getD []).length = 3) := by
  refine ⟨by decide, by decide, by decide, by decide, by decide⟩

/-! Claim C10. -/

/-- C10: after a successful model call, a RunRecord is inserted into
the Session Log only when the save-history toggle is enabled; with
the toggle disabled the output is still displayed and both export
artifacts are still offered, but the log is unchanged. -/
theorem save_history_toggle (libs : Libs) (inp : ScriptInput)
    (history : List RunRecord) (out : String)
    (hrun : inp.runClicked = true) (hkey : pyStrip inp.api_key ≠ "")
    (hgenai : libs.genai = true) (hgw : inp.gateway = Except.ok out) (hout : out ≠ "") :
    (inp.save_history = false →
      (scriptRun libs inp history).history = history
      ∧ (scriptRun libs inp history).displayed = some out
      ∧ (scriptRun libs inp history).exports.length = 2)
    ∧ (inp.save_history = true →
      (scriptRun libs inp history).history
        = scriptRecord inp (assembleOf libs inp) out :: history
      ∧ (scriptRun libs inp history).displayed = some out
      ∧ (scriptRun libs inp history).exports.length = 2) := by
  constructor <;> intro hs <;>
    simp [scriptRun, hrun, hkey, hgenai, hgw, hout, hs, scriptExports]

/-- C10 witness: with the toggle off, the concrete successful run
leaves the log empty while still displaying and exporting. -/
theorem save_history_toggle_witness :
    (scriptRun allLibs inpNoSave []).history = []
    ∧ (scriptRun allLibs inpNoSave []).displayed = some "OUT"
    ∧ (scriptRun allLibs inpNoSave []).exports.length = 2 :=
  (save_history_toggle allLibs inpNoSave [] "OUT" rfl (by decide) rfl rfl
    (by decide)).1 rfl

end VoiceAnalyzer
